import Mathlib

/-!
Shallow embedding of the SignalK installer (packages/installer/src-tauri/src):
`updater.rs`, `installer.rs`, `platform.rs`, `main.rs`.

Effectful operations (filesystem, the Tauri updater plugin, randomness) are
modelled by explicit environment records whose fields give the outcome of each
fallible operation; `Option String` fields hold `some e` when the corresponding
Rust call fails with OS error `e` and `none` when it succeeds.  For code that
is compiled per target OS (`cfg(target_os = ...)`), the Linux / unix build is
the one embedded here.
-/

namespace SignalKInstaller

/-- Mirrors `UpdateInfo` in updater.rs (serde field renames elided). -/
structure UpdateInfo where
  update_available : Bool
  current_version : String
  latest_version : Option String
  release_notes : Option String
  download_url : Option String
deriving Repr, DecidableEq

/-- Outcome of `updater.check().await` (tauri_plugin_updater, external crate):
`Ok(Some(update))` carrying version / body / download_url, `Ok(None)`, or
`Err(e)` for a transient check failure. -/
inductive CheckOutcome where
  | found (version : String) (body : Option String) (downloadUrl : String)
  | upToDate
  | checkFailed (e : String)
deriving Repr, DecidableEq

/-- updater.rs `check_for_updates`: builds an `UpdateInfo` from the check
outcome; a failed check is folded into an `Ok` result whose `release_notes`
carry a diagnostic.  `updaterAcq` is the result of `app.updater()`. -/
def check_for_updates (currentVersion : String) (updaterAcq : Except String Unit)
    (outcome : CheckOutcome) : Except String UpdateInfo :=
  match updaterAcq with
  | .error e => .error ("Failed to get updater: " ++ e)
  | .ok _ =>
    match outcome with
    | .found version body downloadUrl =>
      .ok { update_available := true
            current_version := currentVersion
            latest_version := some version
            release_notes := body
            download_url := some downloadUrl }
    | .upToDate =>
      .ok { update_available := false
            current_version := currentVersion
            latest_version := none
            release_notes := none
            download_url := none }
    | .checkFailed e =>
      .ok { update_available := false
            current_version := currentVersion
            latest_version := none
            release_notes := some ("Update check failed: " ++ e)
            download_url := none }

/-- updater.rs `install_update`: re-runs the check; `download` is the outcome
of `update.download_and_install(..)`. With no update present, or a failing
check, it returns a descriptive error. -/
def install_update (updaterAcq : Except String Unit) (outcome : CheckOutcome)
    (download : Except String Unit) : Except String Unit :=
  match updaterAcq with
  | .error e => .error ("Failed to get updater: " ++ e)
  | .ok _ =>
    match outcome with
    | .found _ _ _ =>
      match download with
      | .error e => .error ("Failed to download and install update: " ++ e)
      | .ok _ => .ok ()
    | .upToDate => .error "No update available"
    | .checkFailed e => .error ("Failed to check for updates: " ++ e)

theorem string_append_ne_empty (s t : String) (h : s ≠ "") : s ++ t ≠ "" := by
  intro hc
  apply h
  have hlen := congrArg String.length hc
  rw [String.length_append] at hlen
  have hs : s.length = 0 := by
    have : String.length "" = 0 := rfl
    omega
  cases s with
  | mk data =>
    cases data with
    | nil => rfl
    | cons c cs => simp [String.length] at hs

/-- C1: for every outcome of the underlying release-source check (update
found, no update, or transient check failure), `check_for_updates` returns a
well-formed `UpdateInfo` value and never an error; in particular a failing
check is folded into a result with `update_available = false` and a non-empty
diagnostic string in the `release_notes` field. -/
theorem check_for_updates_never_errors (cv ver url e : String) (body : Option String) :
    check_for_updates cv (.ok ()) (.found ver body url)
        = .ok { update_available := true, current_version := cv,
                latest_version := some ver, release_notes := body,
                download_url := some url }
    ∧ check_for_updates cv (.ok ()) .upToDate
        = .ok { update_available := false, current_version := cv,
                latest_version := none, release_notes := none,
                download_url := none }
    ∧ check_for_updates cv (.ok ()) (.checkFailed e)
        = .ok { update_available := false, current_version := cv,
                latest_version := none,
                release_notes := some ("Update check failed: " ++ e),
                download_url := none }
    ∧ ("Update check failed: " ++ e) ≠ "" :=
  ⟨rfl, rfl, rfl, string_append_ne_empty _ _ (by decide)⟩

/-- C5: `install_update` returns a descriptive (non-empty) error whenever no
update is present at install time or the update check itself fails, while
`check_for_updates` on the same outcomes succeeds — the opposite propagation
policy. -/
theorem install_update_errors_without_update (cv e : String) (dl : Except String Unit) :
    install_update (.ok ()) .upToDate dl = .error "No update available"
    ∧ install_update (.ok ()) (.checkFailed e) dl
        = .error ("Failed to check for updates: " ++ e)
    ∧ ("No update available" : String) ≠ ""
    ∧ ("Failed to check for updates: " ++ e) ≠ ""
    ∧ (check_for_updates cv (.ok ()) .upToDate).isOk = true
    ∧ (check_for_updates cv (.ok ()) (.checkFailed e)).isOk = true :=
  ⟨rfl, rfl, by decide, string_append_ne_empty _ _ (by decide), rfl, rfl⟩

/-- Mirrors `ExistingInstall` in main.rs. -/
structure ExistingInstall where
  found : Bool
  config_path : Option String
  version : Option String
deriving Repr, DecidableEq

/-- A JSON value, mirroring the fragment of `serde_json::Value` used by
installer.rs (`get` on objects, `as_str`). -/
inductive JsonVal where
  | null
  | boolean (b : Bool)
  | num (n : Int)
  | str (s : String)
  | arr (xs : List JsonVal)
  | obj (fields : List (String × JsonVal))

/-- `serde_json::Value::get(key)`: member lookup on objects, `None` otherwise. -/
def JsonVal.get : JsonVal → String → Option JsonVal
  | .obj fields, key => fields.lookup key
  | _, _ => none

/-- `serde_json::Value::as_str`. -/
def JsonVal.as_str (v : JsonVal) : Option String :=
  match v with
  | .str s => some s
  | _ => none

/-- Environment for `check_existing_install`: `home` is `dirs::home_dir()`,
`settingsExists` whether `<config_dir>/settings.json` exists, `readPackage`
the outcome of `fs::read_to_string(<config_dir>/package.json).ok()`, and
`parse` models `serde_json::from_str::<Value>(..).ok()` (the parser itself is
the external serde_json crate, abstracted as a function). -/
structure DetectEnv where
  home : Option String
  settingsExists : Bool
  readPackage : Option String
  parse : String → Option JsonVal

/-- installer.rs `get_config_dir`: home directory joined with `.signalk`,
falling back to the relative path `.signalk` when the home directory cannot
be determined. -/
def get_config_dir (home : Option String) : String :=
  match home with
  | some h => h ++ "/.signalk"
  | none => ".signalk"

/-- installer.rs `check_existing_install`. -/
def check_existing_install (env : DetectEnv) : ExistingInstall :=
  let config_dir := get_config_dir env.home
  if env.settingsExists then
    let version :=
      (env.readPackage.bind env.parse).bind
        (fun json => (json.get "version").bind (fun v => v.as_str))
    { found := true, config_path := some config_dir, version := version }
  else
    { found := false, config_path := none, version := none }

/-- C8: `detect()` never fails for any filesystem state: home-directory
resolution falls back to a relative path instead of erroring; `found` is true
exactly when a settings file exists in the configuration directory;
`config_path` is present iff `found`; and any failure to read or parse the
sibling manifest yields `version = none` rather than an error. -/
theorem check_existing_install_never_fails (env : DetectEnv) :
    (check_existing_install env).found = env.settingsExists
    ∧ ((check_existing_install env).config_path.isSome
        ↔ (check_existing_install env).found = true)
    ∧ get_config_dir none = ".signalk"
    ∧ (env.readPackage = none → (check_existing_install env).version = none)
    ∧ (∀ c, env.readPackage = some c → env.parse c = none →
        (check_existing_install env).version = none) := by
  unfold check_existing_install
  refine ⟨?dfound, ?dpath, rfl, ?dread, ?dparse⟩
  · by_cases h : env.settingsExists <;> simp [h]
  · by_cases h : env.settingsExists <;> simp [h]
  · intro h
    by_cases hs : env.settingsExists <;> simp [hs, h]
  · intro c hc hp
    by_cases hs : env.settingsExists <;> simp [hs, hc, hp]

/-- Witness for C8 at a concrete environment: an unreadable home directory, an
existing settings file and an unparsable manifest still produce a total,
version-less detection result. -/
theorem check_existing_install_never_fails_witness :
    (check_existing_install
        { home := none, settingsExists := true,
          readPackage := some "not json", parse := fun _ => none }).version = none
    ∧ (check_existing_install
        { home := none, settingsExists := true,
          readPackage := some "not json", parse := fun _ => none }).found = true :=
  ⟨(check_existing_install_never_fails _).2.2.2.2 "not json" rfl rfl,
   (check_existing_install_never_fails _).1⟩

/-! ### Vessel-identifier derivation

The `uuid` crate backing `Uuid::new_v4()` is an external dependency. -/

/-- Lowercase hexadecimal digit character, values above 15 clamped to `f`. -/
def hexChar (n : Nat) : Char :=
  Char.ofNat (if n < 10 then 48 + n else if n < 16 then 87 + n else 102)

/-- Modelled from the spec: the hyphenated lowercase rendering of a random
_v4-style UUID produced by the external `uuid` crate (`Uuid::new_v4()`), as a
function of the 122 fresh random bits `r` drawn for a run: 30 free hex
nibbles laid out `8-4-4-4-12` around the fixed version nibble `4` and the
variant nibble (`8`..`b`). -/
def uuidV4Chars (r : Nat) : List Char :=
  [hexChar (r % 16),
   hexChar (r / 16 % 16),
   hexChar (r / 16 / 16 % 16),
   hexChar (r / 16 / 16 / 16 % 16),
   hexChar (r / 16 / 16 / 16 / 16 % 16),
   hexChar (r / 16 / 16 / 16 / 16 / 16 % 16),
   hexChar (r / 16 / 16 / 16 / 16 / 16 / 16 % 16),
   hexChar (r / 16 / 16 / 16 / 16 / 16 / 16 / 16 % 16),
   '-',
   hexChar (r / 16 / 16 / 16 / 16 / 16 / 16 / 16 / 16 % 16),
   hexChar (r / 16 / 16 / 16 / 16 / 16 / 16 / 16 / 16 / 16 % 16),
   hexChar (r / 16 / 16 / 16 / 16 / 16 / 16 / 16 / 16 / 16 / 16 % 16),
   hexChar (r / 16 / 16 / 16 / 16 / 16 / 16 / 16 / 16 / 16 / 16 / 16 % 16),
   '-',
   '4',
   hexChar (r / 16 / 16 / 16 / 16 / 16 / 16 / 16 / 16 / 16 / 16 / 16 / 16 % 16),
   hexChar (r / 16 / 16 / 16 / 16 / 16 / 16 / 16 / 16 / 16 / 16 / 16 / 16 / 16 % 16),
   hexChar (r / 16 / 16 / 16 / 16 / 16 / 16 / 16 / 16 / 16 / 16 / 16 / 16 / 16 / 16 % 16),
   '-',
   hexChar (8 + r / 16 / 16 / 16 / 16 / 16 / 16 / 16 / 16 / 16 / 16 / 16 / 16 / 16 / 16 / 16 / 16 / 16 / 16 / 16 / 16 / 16 / 16 / 16 / 16 / 16 / 16 / 16 / 16 / 16 / 16 % 4),
   hexChar (r / 16 / 16 / 16 / 16 / 16 / 16 / 16 / 16 / 16 / 16 / 16 / 16 / 16 / 16 / 16 % 16),
   hexChar (r / 16 / 16 / 16 / 16 / 16 / 16 / 16 / 16 / 16 / 16 / 16 / 16 / 16 / 16 / 16 / 16 % 16),
   hexChar (r / 16 / 16 / 16 / 16 / 16 / 16 / 16 / 16 / 16 / 16 / 16 / 16 / 16 / 16 / 16 / 16 / 16 % 16),
   '-',
   hexChar (r / 16 / 16 / 16 / 16 / 16 / 16 / 16 / 16 / 16 / 16 / 16 / 16 / 16 / 16 / 16 / 16 / 16 / 16 % 16),
   hexChar (r / 16 / 16 / 16 / 16 / 16 / 16 / 16 / 16 / 16 / 16 / 16 / 16 / 16 / 16 / 16 / 16 / 16 / 16 / 16 % 16),
   hexChar (r / 16 / 16 / 16 / 16 / 16 / 16 / 16 / 16 / 16 / 16 / 16 / 16 / 16 / 16 / 16 / 16 / 16 / 16 / 16 / 16 % 16),
   hexChar (r / 16 / 16 / 16 / 16 / 16 / 16 / 16 / 16 / 16 / 16 / 16 / 16 / 16 / 16 / 16 / 16 / 16 / 16 / 16 / 16 / 16 % 16),
   hexChar (r / 16 / 16 / 16 / 16 / 16 / 16 / 16 / 16 / 16 / 16 / 16 / 16 / 16 / 16 / 16 / 16 / 16 / 16 / 16 / 16 / 16 / 16 % 16),
   hexChar (r / 16 / 16 / 16 / 16 / 16 / 16 / 16 / 16 / 16 / 16 / 16 / 16 / 16 / 16 / 16 / 16 / 16 / 16 / 16 / 16 / 16 / 16 / 16 % 16),
   hexChar (r / 16 / 16 / 16 / 16 / 16 / 16 / 16 / 16 / 16 / 16 / 16 / 16 / 16 / 16 / 16 / 16 / 16 / 16 / 16 / 16 / 16 / 16 / 16 / 16 % 16),
   hexChar (r / 16 / 16 / 16 / 16 / 16 / 16 / 16 / 16 / 16 / 16 / 16 / 16 / 16 / 16 / 16 / 16 / 16 / 16 / 16 / 16 / 16 / 16 / 16 / 16 / 16 % 16),
   hexChar (r / 16 / 16 / 16 / 16 / 16 / 16 / 16 / 16 / 16 / 16 / 16 / 16 / 16 / 16 / 16 / 16 / 16 / 16 / 16 / 16 / 16 / 16 / 16 / 16 / 16 / 16 % 16),
   hexChar (r / 16 / 16 / 16 / 16 / 16 / 16 / 16 / 16 / 16 / 16 / 16 / 16 / 16 / 16 / 16 / 16 / 16 / 16 / 16 / 16 / 16 / 16 / 16 / 16 / 16 / 16 / 16 % 16),
   hexChar (r / 16 / 16 / 16 / 16 / 16 / 16 / 16 / 16 / 16 / 16 / 16 / 16 / 16 / 16 / 16 / 16 / 16 / 16 / 16 / 16 / 16 / 16 / 16 / 16 / 16 / 16 / 16 / 16 % 16),
   hexChar (r / 16 / 16 / 16 / 16 / 16 / 16 / 16 / 16 / 16 / 16 / 16 / 16 / 16 / 16 / 16 / 16 / 16 / 16 / 16 / 16 / 16 / 16 / 16 / 16 / 16 / 16 / 16 / 16 / 16 % 16)]

/-- Modelled from the spec: `Uuid::new_v4()` rendered to a string. -/
def uuidV4String (r : Nat) : String :=
  String.mk (uuidV4Chars r)

/-- Lowercase hexadecimal digit characters. -/
def isHexDigitChar (c : Char) : Bool :=
  (decide ('0' ≤ c) && decide (c ≤ '9')) || (decide ('a' ≤ c) && decide (c ≤ 'f'))

/-- A 36-character lowercase hyphenated _v4 UUID: hex digits in an `8-4-4-4-12`
layout, version nibble `4` at index 14 and variant nibble in `8..b` at
index 19. -/
def isV4Format (s : String) : Bool :=
  match s.data with
  | c0 :: c1 :: c2 :: c3 :: c4 :: c5 :: c6 :: c7 :: c8 :: c9 :: c10 :: c11 :: c12 :: c13 :: c14 :: c15 :: c16 :: c17 :: c18 :: c19 :: c20 :: c21 :: c22 :: c23 :: c24 :: c25 :: c26 :: c27 :: c28 :: c29 :: c30 :: c31 :: c32 :: c33 :: c34 :: c35 :: [] =>
      isHexDigitChar c0
      && isHexDigitChar c1
      && isHexDigitChar c2
      && isHexDigitChar c3
      && isHexDigitChar c4
      && isHexDigitChar c5
      && isHexDigitChar c6
      && isHexDigitChar c7
      && isHexDigitChar c9
      && isHexDigitChar c10
      && isHexDigitChar c11
      && isHexDigitChar c12
      && isHexDigitChar c15
      && isHexDigitChar c16
      && isHexDigitChar c17
      && isHexDigitChar c20
      && isHexDigitChar c21
      && isHexDigitChar c22
      && isHexDigitChar c24
      && isHexDigitChar c25
      && isHexDigitChar c26
      && isHexDigitChar c27
      && isHexDigitChar c28
      && isHexDigitChar c29
      && isHexDigitChar c30
      && isHexDigitChar c31
      && isHexDigitChar c32
      && isHexDigitChar c33
      && isHexDigitChar c34
      && isHexDigitChar c35
      && (c8 == '-')
      && (c13 == '-')
      && (c14 == '4')
      && (c18 == '-')
      && (c23 == '-')
      && (['8','9','a','b'].contains c19)
  | _ => false

theorem hexChar_injOn : ∀ a, a < 16 → ∀ b, b < 16 → hexChar a = hexChar b → a = b := by
  decide

theorem hexCharMod_inj (a b : Nat) :
    hexChar (a % 16) = hexChar (b % 16) ↔ a % 16 = b % 16 := by
  constructor
  · intro h
    exact hexChar_injOn _ (Nat.mod_lt a (by norm_num)) _ (Nat.mod_lt b (by norm_num)) h
  · intro h
    rw [h]

theorem hexCharVariant_inj (a b : Nat) :
    hexChar (8 + a % 4) = hexChar (8 + b % 4) ↔ a % 4 = b % 4 := by
  constructor
  · intro h
    have ha : 8 + a % 4 < 16 := by
      have := Nat.mod_lt a (show 0 < 4 by norm_num)
      omega
    have hb : 8 + b % 4 < 16 := by
      have := Nat.mod_lt b (show 0 < 4 by norm_num)
      omega
    have := hexChar_injOn _ ha _ hb h
    omega
  · intro h
    rw [h]

theorem isHexDigitChar_hexChar (m : Nat) : isHexDigitChar (hexChar (m % 16)) = true := by
  have h : m % 16 < 16 := Nat.mod_lt m (by norm_num)
  revert h
  generalize m % 16 = k
  intro h
  interval_cases k <;> rfl

theorem variant_hexChar_cases (m : Nat) :
    hexChar (8 + m % 4) = '8' ∨ hexChar (8 + m % 4) = '9'
    ∨ hexChar (8 + m % 4) = 'a' ∨ hexChar (8 + m % 4) = 'b' := by
  have h : m % 4 < 4 := Nat.mod_lt m (by norm_num)
  revert h
  generalize m % 4 = k
  intro h
  interval_cases k <;> simp [hexChar]

theorem uuidV4String_length (r : Nat) : (uuidV4String r).length = 36 := rfl

theorem uuidV4String_isV4Format (r : Nat) : isV4Format (uuidV4String r) = true := by
  simp [uuidV4String, uuidV4Chars, isV4Format, isHexDigitChar_hexChar]
  exact variant_hexChar_cases _

theorem uuidV4String_injOn (ra rb : Nat) (h1 : ra < 2 ^ 122) (h2 : rb < 2 ^ 122)
    (h : uuidV4String ra = uuidV4String rb) : ra = rb := by
  have hd : uuidV4Chars ra = uuidV4Chars rb := congrArg String.data h
  simp only [uuidV4Chars, List.cons.injEq, and_true] at hd
  simp only [hexCharMod_inj, hexCharVariant_inj, true_and, and_true] at hd
  have hb1 : ra < 5316911983139663491615228241121378304 := by
    have : (2 : Nat) ^ 122 = 5316911983139663491615228241121378304 := by norm_num
    omega
  have hb2 : rb < 5316911983139663491615228241121378304 := by
    have : (2 : Nat) ^ 122 = 5316911983139663491615228241121378304 := by norm_num
    omega
  omega

/-! ### Installation orchestrator (installer.rs `run_installation`) -/

/-- Mirrors `InstallerConfig` in main.rs (serde renames elided). -/
structure InstallerConfig where
  vessel_name : String
  mmsi : String
  http_port : Nat
  enable_ssl : Bool
  ssl_port : Nat
  admin_user : String
  admin_password : String
  enable_auto_start : Bool
  serial_ports : List String
deriving Repr, DecidableEq

/-- Content of `settings.json` as built by the `json!` literal in
installer.rs (the nine interface toggles, ssl/port/sslport from the config,
the fixed security strategy, an empty provider list, logging on). -/
structure SettingsData where
  admin_ui : Bool
  appstore : Bool
  nmea_tcp : Bool
  plugins : Bool
  providers : Bool
  rest : Bool
  tcp : Bool
  webapps : Bool
  ws : Bool
  ssl : Bool
  port : Nat
  sslport : Nat
  security_strategy : String
  pipedProviders : List String
  enableLogging : Bool
deriving Repr, DecidableEq

def settingsDoc (config : InstallerConfig) : SettingsData :=
  { admin_ui := true, appstore := true, nmea_tcp := true, plugins := true,
    providers := true, rest := true, tcp := true, webapps := true, ws := true,
    ssl := config.enable_ssl, port := config.http_port,
    sslport := config.ssl_port, security_strategy := "./tokensecurity",
    pipedProviders := [], enableLogging := true }

/-- One value record of the base-deltas document: path `""` mapping to an
object with the vessel name and derived identifier. -/
structure DeltaValue where
  path : String
  name : String
  uuid : String
deriving Repr, DecidableEq

structure DeltaUpdate where
  values : List DeltaValue
deriving Repr, DecidableEq

structure BaseDelta where
  context : String
  updates : List DeltaUpdate
deriving Repr, DecidableEq

/-- Content of `baseDeltas.json`: a single-element list with one
`vessels.self` context record. -/
def baseDeltasDoc (name uuid : String) : List BaseDelta :=
  [{ context := "vessels.self",
     updates := [{ values := [{ path := "", name := name, uuid := uuid }] }] }]

/-- Content of `package.json` for plugins. -/
structure PackageData where
  name : String
  version : String
  description : String
  dependencies : List (String × String)
deriving Repr, DecidableEq

def packageJsonDoc : PackageData :=
  { name := "signalk-config", version := "0.0.1",
    description := "SignalK Server Configuration", dependencies := [] }

/-- The durable filesystem state touched by a run: the four config-directory
documents, the install-directory contents and the service descriptor. -/
structure FS where
  settings : Option SettingsData
  baseDeltas : Option (List BaseDelta)
  packageJson : Option PackageData
  npmrc : Option String
  nodeBinary : Bool
  nodeMode755 : Bool
  serverTree : Bool
  serviceUnit : Option String
deriving Repr, DecidableEq

/-- Outcomes of the effectful operations a run performs, in program order.
`Option String` fields are `some e` when the Rust call fails with error `e`.
`rand` is the fresh randomness drawn by `Uuid::new_v4()`. -/
structure InstallEnv where
  home : Option String
  xdgConfig : Option String
  createConfigDir : Option String
  createInstallDir : Option String
  resourceDir : Option String
  bundledNodeExists : Bool
  copyNode : Option String
  nodeMetadata : Option String
  setNodePerms : Option String
  bundledServerExists : Bool
  copyServer : Option String
  writeSettings : Option String
  writeBaseDeltas : Option String
  writePackage : Option String
  writeNpmrc : Option String
  createSystemdDir : Option String
  writeService : Option String
  rand : Nat
deriving Repr, DecidableEq

/-- Mirrors the payload of installer.rs `emit_progress`. -/
structure ProgressEvent where
  step : String
  status : String
  message : Option String
deriving Repr, DecidableEq

def emit_progress (step status : String) (message : Option String) : ProgressEvent :=
  { step := step, status := status, message := message }

/-- installer.rs `get_install_dir` (Linux branch): `<home>/.local/signalk`,
falling back to the relative path `signalk`. -/
def get_install_dir (home : Option String) : String :=
  match home with
  | some h => h ++ "/.local/signalk"
  | none => "signalk"

/-- platform.rs `create_systemd_service` (Linux regime): pure string
templating of the unit file. -/
def create_systemd_service (config_path node_path server_path : String) :
    Except String String :=
  .ok ("[Unit]\nDescription=SignalK Server\nAfter=network-online.target\nWants=network-online.target\n\n[Service]\nType=simple\nExecStart="
    ++ node_path ++ " " ++ server_path ++ " -c " ++ config_path
    ++ "\nRestart=always\nRestartSec=10\nEnvironment=NODE_ENV=production\nEnvironment=SIGNALK_MANAGED_INSTALL=true\n\n[Install]\nWantedBy=default.target\n")

/-- installer.rs `setup_service` (Linux branch): render the unit and write it
to `<xdg-config>/systemd/user/signalk.service`. -/
def setup_service (env : InstallEnv) (config_dir install_dir : String) (fs : FS) :
    FS × Except String Unit :=
  let config_path := config_dir
  let node_path := install_dir ++ "/node"
  let server_path := install_dir ++ "/signalk-server/bin/signalk-server"
  match create_systemd_service config_path node_path server_path with
  | .error e => (fs, .error e)
  | .ok service_content =>
    match env.xdgConfig with
    | none => (fs, .error "Could not determine systemd user directory")
    | some _ =>
      match env.createSystemdDir with
      | some e => (fs, .error ("Failed to create systemd directory: " ++ e))
      | none =>
        match env.writeService with
        | some e => (fs, .error ("Failed to write systemd service: " ++ e))
        | none => ({ fs with serviceUnit := some service_content }, .ok ())

/-- The node-binary copy of the extract phase: copy if the bundled binary
exists (silently skip otherwise), then set mode 0755 on unix. -/
def copy_node_step (env : InstallEnv) (fs : FS) : FS × Option String :=
  if env.bundledNodeExists then
    match env.copyNode with
    | some e => (fs, some ("Failed to copy Node.js: " ++ e))
    | none =>
      let fs1 := { fs with nodeBinary := true }
      match env.nodeMetadata with
      | some e => (fs1, some ("Failed to get node permissions: " ++ e))
      | none =>
        match env.setNodePerms with
        | some e => (fs1, some ("Failed to set node permissions: " ++ e))
        | none => ({ fs1 with nodeMode755 := true }, none)
  else (fs, none)

/-- The server-tree copy of the extract phase: recursive copy if the bundled
tree exists, silently skipped otherwise. -/
def copy_server_step (env : InstallEnv) (fs : FS) : FS × Option String :=
  if env.bundledServerExists then
    match env.copyServer with
    | some e => (fs, some ("Failed to copy SignalK Server: " ++ e))
    | none => ({ fs with serverTree := true }, none)
  else (fs, none)

/-- Step 1 of `run_installation`: directory creation, resource resolution and
the two copies, with the progress events it emits. -/
def extract_phase (env : InstallEnv) (fs : FS) :
    List ProgressEvent × FS × Except String Unit :=
  let ev1 := [emit_progress "extract" "in_progress" (some "Preparing installation directory...")]
  match env.createConfigDir with
  | some e => (ev1, fs, .error ("Failed to create config directory: " ++ e))
  | none =>
    match env.createInstallDir with
    | some e => (ev1, fs, .error ("Failed to create install directory: " ++ e))
    | none =>
      let ev2 := ev1 ++ [emit_progress "extract" "in_progress" (some "Extracting Node.js and SignalK Server...")]
      match env.resourceDir with
      | some e => (ev2, fs, .error ("Failed to get resource directory: " ++ e))
      | none =>
        let cn := copy_node_step env fs
        match cn.2 with
        | some e => (ev2, cn.1, .error e)
        | none =>
          let cs := copy_server_step env cn.1
          match cs.2 with
          | some e => (ev2, cs.1, .error e)
          | none =>
            (ev2 ++ [emit_progress "extract" "completed" none], cs.1, .ok ())

/-- The vessel-identifier derivation of the configure step: a random
`urn:mrn:signalk:uuid:` URN when the configured MMSI is empty, otherwise
`urn:mrn:imo:mmsi:<mmsi>`.  `r` is the randomness drawn by `Uuid::new_v4()`. -/
def derive_vessel_uuid (mmsi : String) (r : Nat) : String :=
  if mmsi = "" then "urn:mrn:signalk:uuid:" ++ uuidV4String r
  else "urn:mrn:imo:mmsi:" ++ mmsi

/-- The `package.json` write of the configure step: written only if absent. -/
def write_package_step (env : InstallEnv) (fs : FS) : FS × Option String :=
  match fs.packageJson with
  | some _ => (fs, none)
  | none =>
    match env.writePackage with
    | some e => (fs, some ("Failed to write package.json: " ++ e))
    | none => ({ fs with packageJson := some packageJsonDoc }, none)

/-- The `.npmrc` write of the configure step: written only if absent. -/
def write_npmrc_step (env : InstallEnv) (fs : FS) : FS × Option String :=
  match fs.npmrc with
  | some _ => (fs, none)
  | none =>
    match env.writeNpmrc with
    | some e => (fs, some ("Failed to write .npmrc: " ++ e))
    | none => ({ fs with npmrc := some "package-lock=false\n" }, none)

/-- Step 2 of `run_installation`: derive the vessel identifier and write the
four configuration documents (`package.json` and `.npmrc` only if absent). -/
def config_phase (env : InstallEnv) (config : InstallerConfig) (fs : FS) :
    List ProgressEvent × FS × Except String Unit :=
  let ev := [emit_progress "config" "in_progress" (some "Writing configuration files...")]
  let vessel_uuid := derive_vessel_uuid config.mmsi env.rand
  match env.writeSettings with
  | some e => (ev, fs, .error ("Failed to write settings.json: " ++ e))
  | none =>
    let fs1 := { fs with settings := some (settingsDoc config) }
    match env.writeBaseDeltas with
    | some e => (ev, fs1, .error ("Failed to write baseDeltas.json: " ++ e))
    | none =>
      let fs2 := { fs1 with baseDeltas := some (baseDeltasDoc config.vessel_name vessel_uuid) }
      let wp := write_package_step env fs2
      match wp.2 with
      | some e => (ev, wp.1, .error e)
      | none =>
        let wn := write_npmrc_step env wp.1
        match wn.2 with
        | some e => (ev, wn.1, .error e)
        | none => (ev ++ [emit_progress "config" "completed" none], wn.1, .ok ())

/-- Step 3 of `run_installation`: the `service` in-progress event is emitted
before the auto-start flag is consulted; `setup_service` runs only when
auto-start is enabled. -/
def service_phase (env : InstallEnv) (config : InstallerConfig)
    (config_dir install_dir : String) (fs : FS) :
    List ProgressEvent × FS × Except String Unit :=
  let ev := [emit_progress "service" "in_progress" (some "Configuring auto-start...")]
  if config.enable_auto_start then
    let sv := setup_service env config_dir install_dir fs
    match sv.2 with
    | .error e => (ev, sv.1, .error e)
    | .ok _ => (ev ++ [emit_progress "service" "completed" none], sv.1, .ok ())
  else (ev ++ [emit_progress "service" "completed" none], fs, .ok ())

/-- Step 4 of `run_installation`: smoke check that `settings.json` exists. -/
def verify_phase (fs : FS) : List ProgressEvent × FS × Except String Unit :=
  let ev := [emit_progress "verify" "in_progress" (some "Verifying installation...")]
  match fs.settings with
  | some _ => (ev ++ [emit_progress "verify" "completed" none], fs, .ok ())
  | none => (ev, fs, .error "Installation verification failed: settings.json not found")

/-- Result of a run: the emitted progress events, the final filesystem state
and the returned `Result<(), String>`. -/
structure RunResult where
  events : List ProgressEvent
  fs : FS
  result : Except String Unit
deriving Repr

/-- installer.rs `run_installation`: the four-phase orchestrator.  A phase
error aborts the remaining sequence and is returned as is; events accumulate
in program order. -/
def run_installation (env : InstallEnv) (config : InstallerConfig) (fs0 : FS) :
    RunResult :=
  let config_dir := get_config_dir env.home
  let install_dir := get_install_dir env.home
  let ex := extract_phase env fs0
  match ex.2.2 with
  | .error e => { events := ex.1, fs := ex.2.1, result := .error e }
  | .ok _ =>
    let cf := config_phase env config ex.2.1
    match cf.2.2 with
    | .error e => { events := ex.1 ++ cf.1, fs := cf.2.1, result := .error e }
    | .ok _ =>
      let sv := service_phase env config config_dir install_dir cf.2.1
      match sv.2.2 with
      | .error e => { events := ex.1 ++ cf.1 ++ sv.1, fs := sv.2.1, result := .error e }
      | .ok _ =>
        let vf := verify_phase sv.2.1
        { events := ex.1 ++ cf.1 ++ sv.1 ++ vf.1, fs := vf.2.1, result := vf.2.2 }

/-! ### Progress-event traces -/

def exIp1 : ProgressEvent :=
  emit_progress "extract" "in_progress" (some "Preparing installation directory...")
def exIp2 : ProgressEvent :=
  emit_progress "extract" "in_progress" (some "Extracting Node.js and SignalK Server...")
def exC : ProgressEvent := emit_progress "extract" "completed" none
def cfIp : ProgressEvent :=
  emit_progress "config" "in_progress" (some "Writing configuration files...")
def cfC : ProgressEvent := emit_progress "config" "completed" none
def svIp : ProgressEvent :=
  emit_progress "service" "in_progress" (some "Configuring auto-start...")
def svC : ProgressEvent := emit_progress "service" "completed" none
def vfIp : ProgressEvent :=
  emit_progress "verify" "in_progress" (some "Verifying installation...")
def vfC : ProgressEvent := emit_progress "verify" "completed" none

/-- The event trace of a fully successful run. -/
def fullTrace : List ProgressEvent :=
  [exIp1, exIp2, exC, cfIp, cfC, svIp, svC, vfIp, vfC]

def stepIndex (s : String) : Nat :=
  if s == "extract" then 0
  else if s == "config" then 1
  else if s == "service" then 2
  else if s == "verify" then 3
  else 4

def orderedIdx : List Nat → Bool
  | a :: b :: rest => decide (a ≤ b) && orderedIdx (b :: rest)
  | _ => true

/-- Steps appear in the fixed phase order extract, config, service, verify. -/
def stepsOrdered (tr : List ProgressEvent) : Bool :=
  orderedIdx (tr.map (fun e => stepIndex e.step))

def isTerminal (e : ProgressEvent) : Bool :=
  e.status == "completed" || e.status == "failed"

def terminalCount (tr : List ProgressEvent) (s : String) : Nat :=
  (tr.filter (fun x => x.step == s && isTerminal x)).length

/-- For a given step, an `in_progress` event precedes exactly one terminal
status (`completed` or `failed`). -/
def inProgressPrecedesOneTerminal (tr : List ProgressEvent) : Bool :=
  tr.all fun e =>
    !(e.status == "in_progress") ||
      (terminalCount tr e.step == 1 &&
        match tr.findIdx? (fun x => x.step == e.step && x.status == "in_progress"),
              tr.findIdx? (fun x => x.step == e.step && isTerminal x) with
        | some i, some j => decide (i < j)
        | _, _ => false)

/-- A `failed` status for any step terminates the sequence: nothing is
emitted after it. -/
def failedTerminates (tr : List ProgressEvent) : Bool :=
  match tr.findIdx? (fun x => x.status == "failed") with
  | some i => i == tr.length - 1
  | none => true

/-- The ordering invariant exactly as the specification states it. -/
def claimedOrderingInvariant (tr : List ProgressEvent) : Bool :=
  inProgressPrecedesOneTerminal tr && stepsOrdered tr && failedTerminates tr

def noFailedEvents (tr : List ProgressEvent) : Bool :=
  tr.all fun e => !(e.status == "failed")

def atMostOneTerminalEach (tr : List ProgressEvent) : Bool :=
  ["extract", "config", "service", "verify"].all fun s =>
    decide (terminalCount tr s ≤ 1)

/-- Every `completed` event is preceded by an `in_progress` event of the same
step (`seen` carries the steps already started). -/
def completedPreceded : List String → List ProgressEvent → Bool
  | _, [] => true
  | seen, e :: rest =>
    if e.status == "in_progress" then completedPreceded (e.step :: seen) rest
    else if e.status == "completed" then
      seen.contains e.step && completedPreceded seen rest
    else completedPreceded seen rest

/-- The ordering invariant the code actually maintains: no `failed` event is
ever emitted, each step has at most one terminal status (always `completed`),
every terminal is preceded by that step's `in_progress`, and steps appear in
the fixed phase order. -/
def amendedOrderingInvariant (tr : List ProgressEvent) : Bool :=
  noFailedEvents tr && atMostOneTerminalEach tr
    && completedPreceded [] tr && stepsOrdered tr

/-- A failing run's trace is truncated at the failing step: the last event is
that step's `in_progress`, the failing step has no terminal event at all, and
no event belongs to a later step — nothing runs after the failure. -/
def failureTruncated (tr : List ProgressEvent) : Bool :=
  match tr.getLast? with
  | none => false
  | some e =>
    e.status == "in_progress" && terminalCount tr e.step == 0
      && tr.all (fun x => decide (stepIndex x.step ≤ stepIndex e.step))

/-! ### Phase shape lemmas -/

theorem copy_node_step_err_ne (env : InstallEnv) (fs : FS) (e : String)
    (h : (copy_node_step env fs).2 = some e) : e ≠ "" := by
  unfold copy_node_step at h
  repeat' split at h
  all_goals simp at h
  all_goals (rw [← h]; exact string_append_ne_empty _ _ (by decide))

theorem copy_server_step_err_ne (env : InstallEnv) (fs : FS) (e : String)
    (h : (copy_server_step env fs).2 = some e) : e ≠ "" := by
  unfold copy_server_step at h
  repeat' split at h
  all_goals simp at h
  all_goals (rw [← h]; exact string_append_ne_empty _ _ (by decide))

theorem write_package_step_err_ne (env : InstallEnv) (fs : FS) (e : String)
    (h : (write_package_step env fs).2 = some e) : e ≠ "" := by
  unfold write_package_step at h
  repeat' split at h
  all_goals simp at h
  all_goals (rw [← h]; exact string_append_ne_empty _ _ (by decide))

theorem write_npmrc_step_err_ne (env : InstallEnv) (fs : FS) (e : String)
    (h : (write_npmrc_step env fs).2 = some e) : e ≠ "" := by
  unfold write_npmrc_step at h
  repeat' split at h
  all_goals simp at h
  all_goals (rw [← h]; exact string_append_ne_empty _ _ (by decide))

theorem setup_service_err_ne (env : InstallEnv) (config_dir install_dir : String)
    (fs : FS) (e : String)
    (h : (setup_service env config_dir install_dir fs).2 = .error e) : e ≠ "" := by
  unfold setup_service create_systemd_service at h
  repeat' split at h
  all_goals simp at h
  all_goals rw [← h]
  all_goals first
    | exact string_append_ne_empty _ _ (by decide)
    | decide

theorem setup_service_err_xdg (env : InstallEnv) (config_dir install_dir : String)
    (fs : FS) (hx : env.xdgConfig = none) :
    (setup_service env config_dir install_dir fs).2
      = .error "Could not determine systemd user directory" := by
  simp [setup_service, create_systemd_service, hx]

theorem setup_service_err_mkdir (env : InstallEnv) (config_dir install_dir : String)
    (fs : FS) (e : String)
    (hx : env.xdgConfig.isSome = true) (hd : env.createSystemdDir = some e) :
    (setup_service env config_dir install_dir fs).2
      = .error ("Failed to create systemd directory: " ++ e) := by
  rcases hxc : env.xdgConfig with _ | x
  · rw [hxc] at hx
    exact absurd hx (by simp)
  · simp [setup_service, create_systemd_service, hxc, hd]

theorem service_phase_err_of_setup (env : InstallEnv) (config : InstallerConfig)
    (config_dir install_dir : String) (fs : FS) (e : String)
    (hauto : config.enable_auto_start = true)
    (hs : (setup_service env config_dir install_dir fs).2 = .error e) :
    (service_phase env config config_dir install_dir fs).2.2 = .error e := by
  simp [service_phase, hauto, hs]

theorem extract_phase_shape (env : InstallEnv) (fs : FS) :
    ((extract_phase env fs).2.2 = .ok ()
      ∧ (extract_phase env fs).1 = [exIp1, exIp2, exC])
    ∨ ((∃ e, (extract_phase env fs).2.2 = .error e ∧ e ≠ "")
      ∧ ((extract_phase env fs).1 = [exIp1]
          ∨ (extract_phase env fs).1 = [exIp1, exIp2])) := by
  unfold extract_phase
  rcases h1 : env.createConfigDir with _ | e1
  · rcases h2 : env.createInstallDir with _ | e2
    · rcases h3 : env.resourceDir with _ | e3
      · rcases h4 : (copy_node_step env fs).2 with _ | e4
        · rcases h5 : (copy_server_step env (copy_node_step env fs).1).2 with _ | e5
          · left
            simp [h1, h2, h3, h4, h5, exIp1, exIp2, exC, emit_progress]
          · right
            simp [h1, h2, h3, h4, h5, exIp1, exIp2, exC, emit_progress]
            exact copy_server_step_err_ne _ _ _ h5
        · right
          simp [h1, h2, h3, h4, exIp1, exIp2, exC, emit_progress]
          exact copy_node_step_err_ne _ _ _ h4
      · right
        simp [h1, h2, h3, exIp1, exIp2, emit_progress]
        exact string_append_ne_empty _ _ (by decide)
    · right
      simp [h1, h2, exIp1, emit_progress]
      exact string_append_ne_empty _ _ (by decide)
  · right
    simp [h1, exIp1, emit_progress]
    exact string_append_ne_empty _ _ (by decide)

theorem config_phase_shape (env : InstallEnv) (config : InstallerConfig) (fs : FS) :
    ((config_phase env config fs).2.2 = .ok ()
      ∧ (config_phase env config fs).1 = [cfIp, cfC])
    ∨ ((∃ e, (config_phase env config fs).2.2 = .error e ∧ e ≠ "")
      ∧ (config_phase env config fs).1 = [cfIp]) := by
  unfold config_phase
  rcases h1 : env.writeSettings with _ | e1
  · rcases h2 : env.writeBaseDeltas with _ | e2
    · rcases h3 : (write_package_step env
        { fs with settings := some (settingsDoc config),
                  baseDeltas := some (baseDeltasDoc config.vessel_name
                    (derive_vessel_uuid config.mmsi env.rand)) }).2 with _ | e3
      · rcases h4 : (write_npmrc_step env (write_package_step env
          { fs with settings := some (settingsDoc config),
                    baseDeltas := some (baseDeltasDoc config.vessel_name
                      (derive_vessel_uuid config.mmsi env.rand)) }).1).2 with _ | e4
        · left
          simp [h1, h2, h3, h4, cfIp, cfC, emit_progress]
        · right
          simp [h1, h2, h3, h4, cfIp, cfC, emit_progress]
          exact write_npmrc_step_err_ne _ _ _ h4
      · right
        simp [h1, h2, h3, cfIp, cfC, emit_progress]
        exact write_package_step_err_ne _ _ _ h3
    · right
      simp [h1, h2, cfIp, emit_progress]
      exact string_append_ne_empty _ _ (by decide)
  · right
    simp [h1, cfIp, emit_progress]
    exact string_append_ne_empty _ _ (by decide)

theorem service_phase_shape (env : InstallEnv) (config : InstallerConfig)
    (config_dir install_dir : String) (fs : FS) :
    ((service_phase env config config_dir install_dir fs).2.2 = .ok ()
      ∧ (service_phase env config config_dir install_dir fs).1 = [svIp, svC])
    ∨ ((∃ e, (service_phase env config config_dir install_dir fs).2.2 = .error e ∧ e ≠ "")
      ∧ (service_phase env config config_dir install_dir fs).1 = [svIp]) := by
  unfold service_phase
  rcases hauto : config.enable_auto_start with _ | _
  · left
    simp [hauto, svIp, svC, emit_progress]
  · rcases h1 : (setup_service env config_dir install_dir fs).2 with e1 | _
    · right
      simp [hauto, h1, svIp, svC, emit_progress]
      exact setup_service_err_ne _ _ _ _ _ h1
    · left
      simp [hauto, h1, svIp, svC, emit_progress]

theorem verify_phase_shape (fs : FS) :
    ((verify_phase fs).2.2 = .ok () ∧ (verify_phase fs).1 = [vfIp, vfC])
    ∨ ((∃ e, (verify_phase fs).2.2 = .error e ∧ e ≠ "")
      ∧ (verify_phase fs).1 = [vfIp]) := by
  obtain ⟨s, b, pk, np, nb, nm, st, su⟩ := fs
  unfold verify_phase
  repeat' split
  all_goals simp [vfIp, vfC, emit_progress]

/-- Every run emits one of six event traces: the full success trace, or one
of five prefixes cut short by the first failing operation; the result is `ok`
exactly on the full trace, and every error message is non-empty. -/
theorem run_trace_cases (env : InstallEnv) (config : InstallerConfig) (fs : FS) :
    ((run_installation env config fs).result = .ok ()
      ∧ (run_installation env config fs).events = fullTrace)
    ∨ ((∃ msg, (run_installation env config fs).result = .error msg ∧ msg ≠ "")
      ∧ ((run_installation env config fs).events = [exIp1]
        ∨ (run_installation env config fs).events = [exIp1, exIp2]
        ∨ (run_installation env config fs).events = [exIp1, exIp2, exC, cfIp]
        ∨ (run_installation env config fs).events = [exIp1, exIp2, exC, cfIp, cfC, svIp]
        ∨ (run_installation env config fs).events
            = [exIp1, exIp2, exC, cfIp, cfC, svIp, svC, vfIp])) := by
  unfold run_installation
  rcases extract_phase_shape env fs with ⟨hok1, hev1⟩ | ⟨⟨e1, herr1, hne1⟩, hev1⟩
  · rcases config_phase_shape env config (extract_phase env fs).2.1 with
      ⟨hok2, hev2⟩ | ⟨⟨e2, herr2, hne2⟩, hev2⟩
    · rcases service_phase_shape env config (get_config_dir env.home)
        (get_install_dir env.home)
        ((config_phase env config (extract_phase env fs).2.1).2.1) with
        ⟨hok3, hev3⟩ | ⟨⟨e3, herr3, hne3⟩, hev3⟩
      · rcases verify_phase_shape ((service_phase env config (get_config_dir env.home)
          (get_install_dir env.home)
          ((config_phase env config (extract_phase env fs).2.1).2.1)).2.1) with
          ⟨hok4, hev4⟩ | ⟨⟨e4, herr4, hne4⟩, hev4⟩
        · left
          simp [hok1, hev1, hok2, hev2, hok3, hev3, hok4, hev4, fullTrace]
        · right
          simp [hok1, hev1, hok2, hev2, hok3, hev3, herr4, hev4, hne4]
      · right
        simp [hok1, hev1, hok2, hev2, herr3, hev3, hne3]
    · right
      simp [hok1, hev1, herr2, hev2, hne2]
  · right
    rcases hev1 with hev1 | hev1 <;> simp [herr1, hev1, hne1]

/-- Concrete environment in which every effectful operation succeeds. -/
def envAllOk : InstallEnv :=
  { home := some "/home/user", xdgConfig := some "/home/user/.config",
    createConfigDir := none, createInstallDir := none, resourceDir := none,
    bundledNodeExists := true, copyNode := none, nodeMetadata := none,
    setNodePerms := none, bundledServerExists := true, copyServer := none,
    writeSettings := none, writeBaseDeltas := none, writePackage := none,
    writeNpmrc := none, createSystemdDir := none, writeService := none,
    rand := 0 }

/-- The example configuration of the specification. -/
def cfgDefault : InstallerConfig :=
  { vessel_name := "Test", mmsi := "", http_port := 3000, enable_ssl := false,
    ssl_port := 3443, admin_user := "admin", admin_password := "secret",
    enable_auto_start := false, serial_ports := [] }

/-- An empty target filesystem. -/
def fsEmpty : FS :=
  { settings := none, baseDeltas := none, packageJson := none, npmrc := none,
    nodeBinary := false, nodeMode755 := false, serverTree := false,
    serviceUnit := none }

/-- C2 counterexample: on the concrete run in which creating the
configuration directory fails, the emitted trace is the single event
`extract / in_progress`, so the step `extract` has an `in_progress` event
followed by no terminal status at all — the claimed invariant ("`in_progress`
precedes exactly one terminal status") is false on this run of the code. -/
theorem claimed_ordering_invariant_fails :
    claimedOrderingInvariant
      (run_installation { envAllOk with createConfigDir := some "disk full" }
        cfgDefault fsEmpty).events = false := by
  rfl

/-- C2 (amended): in every run, progress events obey: no `failed` status is
ever emitted; for a given step at most one terminal status (always
`completed`) is emitted, preceded by that step's `in_progress`; steps are
emitted in the fixed phase order extract, config, service, verify; and a
phase failure terminates the sequence with an error return and no terminal
event for the failing step, so no further steps run — in a successful run the
trace is exactly the full nine-event sequence. -/
theorem run_ordering_invariant (env : InstallEnv) (config : InstallerConfig) (fs : FS) :
    amendedOrderingInvariant (run_installation env config fs).events = true
    ∧ ((run_installation env config fs).result = .ok ()
        → (run_installation env config fs).events = fullTrace)
    ∧ (∀ msg, (run_installation env config fs).result = .error msg
        → msg ≠ ""
          ∧ failureTruncated (run_installation env config fs).events = true) := by
  rcases run_trace_cases env config fs with ⟨hok, hev⟩ | ⟨⟨msg, herr, hne⟩, hevs⟩
  · refine ⟨by rw [hev]; decide, fun _ => hev, ?_⟩
    intro m hm
    rw [hok] at hm
    exact absurd hm (by simp)
  · refine ⟨?_, ?_, ?_⟩
    · rcases hevs with hq | hq | hq | hq | hq <;> rw [hq] <;> decide
    · intro hok
      rw [herr] at hok
      exact absurd hok (by simp)
    · intro m hm
      rw [herr] at hm
      injection hm with hmm
      refine ⟨hmm ▸ hne, ?_⟩
      rcases hevs with hq | hq | hq | hq | hq <;> rw [hq] <;> decide

/-- Witness for C2 (amended): at the all-success environment the invariant
holds and the trace is the full nine-event sequence, and on the concrete
failing run (config-directory creation fails) the error is non-empty and the
trace is truncated at the failing step. -/
theorem run_ordering_invariant_witness :
    (amendedOrderingInvariant (run_installation envAllOk cfgDefault fsEmpty).events = true
      ∧ (run_installation envAllOk cfgDefault fsEmpty).events = fullTrace)
    ∧ ("Failed to create config directory: disk full" ≠ (""  : String)
      ∧ failureTruncated
          (run_installation { envAllOk with createConfigDir := some "disk full" }
            cfgDefault fsEmpty).events = true) :=
  ⟨⟨(run_ordering_invariant envAllOk cfgDefault fsEmpty).1,
    (run_ordering_invariant envAllOk cfgDefault fsEmpty).2.1 (by rfl)⟩,
   (run_ordering_invariant { envAllOk with createConfigDir := some "disk full" }
      cfgDefault fsEmpty).2.2 "Failed to create config directory: disk full" (by rfl)⟩

/-! ### Filesystem-effect lemmas -/

theorem copy_node_step_fs (env : InstallEnv) (fs : FS) :
    ∃ nb nm, (copy_node_step env fs).1 = { fs with nodeBinary := nb, nodeMode755 := nm }
    ∧ (fs.nodeBinary = true → nb = true)
    ∧ (env.bundledNodeExists = false → nb = fs.nodeBinary ∧ nm = fs.nodeMode755)
    ∧ (env.bundledNodeExists = true → (copy_node_step env fs).2 = none → nb = true) := by
  rcases hb : env.bundledNodeExists with _ | _ <;>
    rcases hc : env.copyNode with _ | e1 <;>
      rcases hm : env.nodeMetadata with _ | e2 <;>
        rcases hs : env.setNodePerms with _ | e3 <;>
          first
          | (refine ⟨fs.nodeBinary, fs.nodeMode755, ?_⟩
             simp [copy_node_step, hb, hc, hm, hs]
             done)
          | (refine ⟨true, fs.nodeMode755, ?_⟩
             simp [copy_node_step, hb, hc, hm, hs]
             done)
          | (refine ⟨true, true, ?_⟩
             simp [copy_node_step, hb, hc, hm, hs]
             done)

theorem copy_server_step_fs (env : InstallEnv) (fs : FS) :
    ∃ st, (copy_server_step env fs).1 = { fs with serverTree := st }
    ∧ (fs.serverTree = true → st = true)
    ∧ (env.bundledServerExists = false → st = fs.serverTree)
    ∧ (env.bundledServerExists = true → (copy_server_step env fs).2 = none → st = true) := by
  rcases hb : env.bundledServerExists with _ | _ <;>
    rcases hc : env.copyServer with _ | e1 <;>
      first
      | (refine ⟨fs.serverTree, ?_⟩
         simp [copy_server_step, hb, hc]
         done)
      | (refine ⟨true, ?_⟩
         simp [copy_server_step, hb, hc]
         done)

theorem write_package_step_fs (env : InstallEnv) (fs : FS) :
    ∃ pk, (write_package_step env fs).1 = { fs with packageJson := pk }
    ∧ (∀ p, fs.packageJson = some p → pk = some p)
    ∧ ((write_package_step env fs).2 = none
        → pk = some (fs.packageJson.getD packageJsonDoc)) := by
  obtain ⟨s, b, pk, np, nb, nm, st, su⟩ := fs
  rcases hp : pk with _ | p <;>
    rcases hw : env.writePackage with _ | e1 <;>
      first
      | (refine ⟨some packageJsonDoc, ?_⟩
         simp [write_package_step, hw]
         done)
      | (refine ⟨none, ?_⟩
         simp [write_package_step, hw]
         done)
      | (refine ⟨some p, ?_⟩
         simp [write_package_step, hw]
         done)

theorem write_npmrc_step_fs (env : InstallEnv) (fs : FS) :
    ∃ np, (write_npmrc_step env fs).1 = { fs with npmrc := np }
    ∧ (∀ n, fs.npmrc = some n → np = some n)
    ∧ ((write_npmrc_step env fs).2 = none
        → np = some (fs.npmrc.getD "package-lock=false\n")) := by
  obtain ⟨s, b, pk, np, nb, nm, st, su⟩ := fs
  rcases hp : np with _ | n <;>
    rcases hw : env.writeNpmrc with _ | e1 <;>
      first
      | (refine ⟨some "package-lock=false\n", ?_⟩
         simp [write_npmrc_step, hw]
         done)
      | (refine ⟨none, ?_⟩
         simp [write_npmrc_step, hw]
         done)
      | (refine ⟨some n, ?_⟩
         simp [write_npmrc_step, hw]
         done)

theorem setup_service_fs (env : InstallEnv) (config_dir install_dir : String) (fs : FS) :
    ∃ su, (setup_service env config_dir install_dir fs).1 = { fs with serviceUnit := su }
    ∧ (fs.serviceUnit.isSome → su.isSome)
    ∧ ((setup_service env config_dir install_dir fs).2 = .ok ()
        → su = (create_systemd_service config_dir (install_dir ++ "/node")
            (install_dir ++ "/signalk-server/bin/signalk-server")).toOption)
    ∧ ((∃ e, (setup_service env config_dir install_dir fs).2 = .error e)
        → su = fs.serviceUnit)
    ∧ (env.xdgConfig.isSome → env.createSystemdDir = none → env.writeService = none
        → (setup_service env config_dir install_dir fs).2 = .ok ())
    ∧ (∀ e, env.xdgConfig.isSome → env.createSystemdDir = none
        → env.writeService = some e
        → (setup_service env config_dir install_dir fs).2
            = .error ("Failed to write systemd service: " ++ e)) := by
  rcases hx : env.xdgConfig with _ | x <;>
    rcases hd : env.createSystemdDir with _ | e1 <;>
      rcases hw : env.writeService with _ | e2 <;>
        first
        | (refine ⟨some ("[Unit]\nDescription=SignalK Server\nAfter=network-online.target\nWants=network-online.target\n\n[Service]\nType=simple\nExecStart="
              ++ (install_dir ++ "/node") ++ " "
              ++ (install_dir ++ "/signalk-server/bin/signalk-server")
              ++ " -c " ++ config_dir
              ++ "\nRestart=always\nRestartSec=10\nEnvironment=NODE_ENV=production\nEnvironment=SIGNALK_MANAGED_INSTALL=true\n\n[Install]\nWantedBy=default.target\n"), ?_⟩
           simp [setup_service, create_systemd_service, Except.toOption, hx, hd, hw]
           done)
        | (refine ⟨fs.serviceUnit, ?_⟩
           simp [setup_service, create_systemd_service, hx, hd, hw]
           done)

theorem verify_phase_fs (fs : FS) :
    (verify_phase fs).2.1 = fs
    ∧ ((verify_phase fs).2.2 = .ok () ↔ fs.settings.isSome = true) := by
  rcases h : fs.settings with _ | s <;> simp [verify_phase, h]

theorem extract_phase_fs (env : InstallEnv) (fs : FS) :
    ∃ nb nm st,
      (extract_phase env fs).2.1
        = { fs with nodeBinary := nb, nodeMode755 := nm, serverTree := st }
      ∧ (fs.nodeBinary = true → nb = true)
      ∧ (fs.serverTree = true → st = true)
      ∧ (env.bundledNodeExists = false → nb = fs.nodeBinary)
      ∧ (env.bundledServerExists = false → st = fs.serverTree)
      ∧ ((extract_phase env fs).2.2 = .ok () → env.bundledNodeExists = true
          → nb = true)
      ∧ ((extract_phase env fs).2.2 = .ok () → env.bundledServerExists = true
          → st = true) := by
  obtain ⟨cnb, cnm, hrec1, hmono1, hskip1, hok1⟩ := copy_node_step_fs env fs
  obtain ⟨cst, hrec2, hmono2, hskip2, hok2⟩ :=
    copy_server_step_fs env (copy_node_step env fs).1
  rcases h1 : env.createConfigDir with _ | e1
  · rcases h2 : env.createInstallDir with _ | e2
    · rcases h3 : env.resourceDir with _ | e3
      · rcases h4 : (copy_node_step env fs).2 with _ | e4
        · refine ⟨cnb, cnm, cst, ?_, hmono1, ?_, fun h => (hskip1 h).1, ?_, ?_, ?_⟩
          · rcases h5 : (copy_server_step env (copy_node_step env fs).1).2 with _ | e5 <;>
              simp [extract_phase, h1, h2, h3, h4, h5] <;> rw [hrec2, hrec1]
          · intro hst
            exact hmono2 (by rw [hrec1]; exact hst)
          · intro hbs
            rw [hskip2 hbs, hrec1]
          · intro _ hbn
            exact hok1 hbn h4
          · intro hok hbs
            rcases h5 : (copy_server_step env (copy_node_step env fs).1).2 with _ | e5
            · exact hok2 hbs h5
            · simp [extract_phase, h1, h2, h3, h4, h5] at hok
        · refine ⟨cnb, cnm, fs.serverTree, ?_, hmono1, fun h => h,
            fun h => (hskip1 h).1, fun _ => rfl, ?_, ?_⟩
          · simp [extract_phase, h1, h2, h3, h4]
            rw [hrec1]
          · intro hok
            simp [extract_phase, h1, h2, h3, h4] at hok
          · intro hok
            simp [extract_phase, h1, h2, h3, h4] at hok
      · refine ⟨fs.nodeBinary, fs.nodeMode755, fs.serverTree, ?_, fun h => h,
          fun h => h, fun _ => rfl, fun _ => rfl, ?_, ?_⟩
        · simp [extract_phase, h1, h2, h3]
        · intro hok
          simp [extract_phase, h1, h2, h3] at hok
        · intro hok
          simp [extract_phase, h1, h2, h3] at hok
    · refine ⟨fs.nodeBinary, fs.nodeMode755, fs.serverTree, ?_, fun h => h,
        fun h => h, fun _ => rfl, fun _ => rfl, ?_, ?_⟩
      · simp [extract_phase, h1, h2]
      · intro hok
        simp [extract_phase, h1, h2] at hok
      · intro hok
        simp [extract_phase, h1, h2] at hok
  · refine ⟨fs.nodeBinary, fs.nodeMode755, fs.serverTree, ?_, fun h => h,
      fun h => h, fun _ => rfl, fun _ => rfl, ?_, ?_⟩
    · simp [extract_phase, h1]
    · intro hok
      simp [extract_phase, h1] at hok
    · intro hok
      simp [extract_phase, h1] at hok

theorem config_phase_fs (env : InstallEnv) (config : InstallerConfig) (fs : FS) :
    ∃ s b pk np,
      (config_phase env config fs).2.1
        = { fs with settings := s, baseDeltas := b, packageJson := pk, npmrc := np }
      ∧ (∀ p, fs.packageJson = some p → pk = some p)
      ∧ (∀ n, fs.npmrc = some n → np = some n)
      ∧ (fs.settings.isSome → s.isSome)
      ∧ (fs.baseDeltas.isSome → b.isSome)
      ∧ ((config_phase env config fs).2.2 = .ok () →
          s = some (settingsDoc config)
          ∧ b = some (baseDeltasDoc config.vessel_name
              (derive_vessel_uuid config.mmsi env.rand))
          ∧ pk = some (fs.packageJson.getD packageJsonDoc)
          ∧ np = some (fs.npmrc.getD "package-lock=false\n")) := by
  obtain ⟨pk, hrecP, hmonoP, hokP⟩ := write_package_step_fs env
    { fs with settings := some (settingsDoc config),
              baseDeltas := some (baseDeltasDoc config.vessel_name
                (derive_vessel_uuid config.mmsi env.rand)) }
  obtain ⟨np, hrecN, hmonoN, hokN⟩ := write_npmrc_step_fs env
    (write_package_step env
      { fs with settings := some (settingsDoc config),
                baseDeltas := some (baseDeltasDoc config.vessel_name
                  (derive_vessel_uuid config.mmsi env.rand)) }).1
  rcases h1 : env.writeSettings with _ | e1
  · rcases h2 : env.writeBaseDeltas with _ | e2
    · rcases h3 : (write_package_step env
        { fs with settings := some (settingsDoc config),
                  baseDeltas := some (baseDeltasDoc config.vessel_name
                    (derive_vessel_uuid config.mmsi env.rand)) }).2 with _ | e3
      · rcases h4 : (write_npmrc_step env (write_package_step env
          { fs with settings := some (settingsDoc config),
                    baseDeltas := some (baseDeltasDoc config.vessel_name
                      (derive_vessel_uuid config.mmsi env.rand)) }).1).2 with _ | e4
        · refine ⟨some (settingsDoc config),
            some (baseDeltasDoc config.vessel_name
              (derive_vessel_uuid config.mmsi env.rand)), pk, np,
            ?_, ?_, ?_, fun _ => rfl, fun _ => rfl, ?_⟩
          · simp [config_phase, h1, h2, h3, h4]
            rw [hrecN, hrecP]
          · intro p hp
            exact hmonoP p (by simpa using hp)
          · intro n hn
            apply hmonoN n
            rw [hrecP]
            simpa using hn
          · intro _
            refine ⟨rfl, rfl, ?_, ?_⟩
            · simpa using hokP h3
            · rw [hokN h4, hrecP]
        · refine ⟨some (settingsDoc config),
            some (baseDeltasDoc config.vessel_name
              (derive_vessel_uuid config.mmsi env.rand)), pk, np,
            ?_, ?_, ?_, fun _ => rfl, fun _ => rfl, ?_⟩
          · simp [config_phase, h1, h2, h3, h4]
            rw [hrecN, hrecP]
          · intro p hp
            exact hmonoP p (by simpa using hp)
          · intro n hn
            apply hmonoN n
            rw [hrecP]
            simpa using hn
          · intro hok
            simp [config_phase, h1, h2, h3, h4] at hok
      · refine ⟨some (settingsDoc config),
          some (baseDeltasDoc config.vessel_name
            (derive_vessel_uuid config.mmsi env.rand)), pk, fs.npmrc,
          ?_, ?_, fun n hn => hn, fun _ => rfl, fun _ => rfl, ?_⟩
        · simp [config_phase, h1, h2, h3]
          rw [hrecP]
        · intro p hp
          exact hmonoP p (by simpa using hp)
        · intro hok
          simp [config_phase, h1, h2, h3] at hok
    · refine ⟨some (settingsDoc config), fs.baseDeltas, fs.packageJson, fs.npmrc,
        ?_, fun p hp => hp, fun n hn => hn, fun _ => rfl, fun h => h, ?_⟩
      · simp [config_phase, h1, h2]
      · intro hok
        simp [config_phase, h1, h2] at hok
  · refine ⟨fs.settings, fs.baseDeltas, fs.packageJson, fs.npmrc,
      ?_, fun p hp => hp, fun n hn => hn, fun h => h, fun h => h, ?_⟩
    · simp [config_phase, h1]
    · intro hok
      simp [config_phase, h1] at hok

theorem service_phase_fs (env : InstallEnv) (config : InstallerConfig)
    (config_dir install_dir : String) (fs : FS) :
    ∃ su,
      (service_phase env config config_dir install_dir fs).2.1
        = { fs with serviceUnit := su }
      ∧ (config.enable_auto_start = false → su = fs.serviceUnit)
      ∧ (fs.serviceUnit.isSome → su.isSome)
      ∧ (config.enable_auto_start = true → env.xdgConfig.isSome
          → env.createSystemdDir = none → env.writeService = none
          → su = (create_systemd_service config_dir (install_dir ++ "/node")
              (install_dir ++ "/signalk-server/bin/signalk-server")).toOption
            ∧ (service_phase env config config_dir install_dir fs).2.2 = .ok ())
      ∧ (∀ e, config.enable_auto_start = true → env.xdgConfig.isSome
          → env.createSystemdDir = none → env.writeService = some e
          → (service_phase env config config_dir install_dir fs).2.2
              = .error ("Failed to write systemd service: " ++ e)) := by
  obtain ⟨su, hrecS, hmonoS, hokS, herrS, hsuccS, hwErrS⟩ :=
    setup_service_fs env config_dir install_dir fs
  rcases hauto : config.enable_auto_start with _ | _
  · refine ⟨fs.serviceUnit, ?_, fun _ => rfl, fun h => h, ?_, ?_⟩
    · simp [service_phase, hauto]
    · intro h
      exact absurd h (by simp)
    · intro e h
      exact absurd h (by simp)
  · rcases h1 : (setup_service env config_dir install_dir fs).2 with e1 | _
    · refine ⟨su, ?_, ?_, hmonoS, ?_, ?_⟩
      · simp [service_phase, hauto, h1]
        exact hrecS
      · intro h
        exact absurd h (by simp)
      · intro _ hx hd hw
        rw [hsuccS hx hd hw] at h1
        exact absurd h1 (by simp)
      · intro e _ hx hd hw
        have hmsg := hwErrS e hx hd hw
        rw [h1] at hmsg
        simp [service_phase, hauto, h1]
        exact (Except.error.injEq _ _).mp hmsg
    · refine ⟨su, ?_, ?_, hmonoS, ?_, ?_⟩
      · simp [service_phase, hauto, h1]
        exact hrecS
      · intro h
        exact absurd h (by simp)
      · intro _ hx hd hw
        refine ⟨hokS h1, ?_⟩
        simp [service_phase, hauto, h1]
      · intro e _ hx hd hw
        have hmsg := hwErrS e hx hd hw
        rw [h1] at hmsg
        exact absurd hmsg (by simp)

/-- Master characterisation of a run's filesystem effects: the final
filesystem differs from the initial one only in the fields a run can write;
`package.json` and `.npmrc` are never overwritten; reaching `config completed`
fixes the four configuration documents; skipped copies leave the install
directory untouched; the service phase writes the rendered unit exactly when
auto-start is on and the service operations succeed. -/
theorem run_fs_spec (env : InstallEnv) (config : InstallerConfig) (fs : FS) :
    ∃ s b pk np nb nm st su,
      (run_installation env config fs).fs
        = { settings := s, baseDeltas := b, packageJson := pk, npmrc := np,
            nodeBinary := nb, nodeMode755 := nm, serverTree := st,
            serviceUnit := su }
      ∧ (∀ p, fs.packageJson = some p → pk = some p)
      ∧ (∀ n, fs.npmrc = some n → np = some n)
      ∧ (fs.settings.isSome → s.isSome)
      ∧ (fs.baseDeltas.isSome → b.isSome)
      ∧ (fs.serviceUnit.isSome → su.isSome)
      ∧ (fs.nodeBinary = true → nb = true)
      ∧ (fs.serverTree = true → st = true)
      ∧ (env.bundledNodeExists = false → nb = fs.nodeBinary)
      ∧ (env.bundledServerExists = false → st = fs.serverTree)
      ∧ (config.enable_auto_start = false → su = fs.serviceUnit)
      ∧ (cfC ∈ (run_installation env config fs).events →
          s = some (settingsDoc config)
          ∧ b = some (baseDeltasDoc config.vessel_name
              (derive_vessel_uuid config.mmsi env.rand))
          ∧ pk = some (fs.packageJson.getD packageJsonDoc)
          ∧ np = some (fs.npmrc.getD "package-lock=false\n"))
      ∧ (exC ∈ (run_installation env config fs).events
          → env.bundledNodeExists = true → nb = true)
      ∧ (exC ∈ (run_installation env config fs).events
          → env.bundledServerExists = true → st = true)
      ∧ ((run_installation env config fs).result = .ok ()
          → cfC ∈ (run_installation env config fs).events)
      ∧ (config.enable_auto_start = false
          → cfC ∈ (run_installation env config fs).events
          → svIp ∈ (run_installation env config fs).events
            ∧ svC ∈ (run_installation env config fs).events)
      ∧ (config.enable_auto_start = true
          → cfC ∈ (run_installation env config fs).events →
          (env.xdgConfig = none →
            (run_installation env config fs).result
              = .error "Could not determine systemd user directory")
          ∧ (∀ e, env.xdgConfig.isSome = true → env.createSystemdDir = some e →
              (run_installation env config fs).result
                = .error ("Failed to create systemd directory: " ++ e))
          ∧ (env.xdgConfig.isSome → env.createSystemdDir = none →
            (env.writeService = none →
              su = (create_systemd_service (get_config_dir env.home)
                (get_install_dir env.home ++ "/node")
                (get_install_dir env.home ++ "/signalk-server/bin/signalk-server")).toOption)
            ∧ (∀ e, env.writeService = some e →
                (run_installation env config fs).result
                  = .error ("Failed to write systemd service: " ++ e)))) := by
  obtain ⟨enb, enm, est, hrecE, hmonoNbE, hmonoStE, hskipNbE, hskipStE, hokNbE, hokStE⟩ :=
    extract_phase_fs env fs
  rcases extract_phase_shape env fs with ⟨hok1, hev1⟩ | ⟨⟨e1, herr1, hne1⟩, hev1⟩
  · obtain ⟨cs, cb, cpk, cnp, hrecC, hmonoPkC, hmonoNpC, hmonoSC, hmonoBC, hokC⟩ :=
      config_phase_fs env config (extract_phase env fs).2.1
    rcases config_phase_shape env config (extract_phase env fs).2.1 with
      ⟨hok2, hev2⟩ | ⟨⟨e2, herr2, hne2⟩, hev2⟩
    · obtain ⟨ssu, hrecS, hskipS, hmonoS, hokS, herrS⟩ :=
        service_phase_fs env config (get_config_dir env.home) (get_install_dir env.home)
          ((config_phase env config (extract_phase env fs).2.1).2.1)
      rcases service_phase_shape env config (get_config_dir env.home)
        (get_install_dir env.home)
        ((config_phase env config (extract_phase env fs).2.1).2.1) with
        ⟨hok3, hev3⟩ | ⟨⟨e3, herr3, hne3⟩, hev3⟩
      · -- extract, config and service succeeded
        obtain ⟨hrecV, hiffV⟩ := verify_phase_fs
          ((service_phase env config (get_config_dir env.home) (get_install_dir env.home)
            ((config_phase env config (extract_phase env fs).2.1).2.1)).2.1)
        rcases verify_phase_shape ((service_phase env config (get_config_dir env.home)
          (get_install_dir env.home)
          ((config_phase env config (extract_phase env fs).2.1).2.1)).2.1) with
          ⟨hok4, hev4⟩ | ⟨⟨e4, herr4, hne4⟩, hev4⟩
        · have hrun : run_installation env config fs
              = { events := fullTrace,
                  fs := (service_phase env config (get_config_dir env.home)
                    (get_install_dir env.home)
                    ((config_phase env config (extract_phase env fs).2.1).2.1)).2.1,
                  result := .ok () } := by
            simp [run_installation, hok1, hev1, hok2, hev2, hok3, hev3, hok4, hev4,
              hrecV, fullTrace]
          have hevents : (run_installation env config fs).events = fullTrace := by
            rw [hrun]
          have hresult : (run_installation env config fs).result = .ok () := by
            rw [hrun]
          refine ⟨cs, cb, cpk, cnp, enb, enm, est, ssu, ?ga1, ?ga2, ?ga3, ?ga4, ?ga5, ?ga6,
            hmonoNbE, hmonoStE, hskipNbE, hskipStE, ?_, ?_,
            fun _ hbn => hokNbE hok1 hbn, fun _ hbs => hokStE hok1 hbs,
            fun _ => by rw [hevents, fullTrace]; decide,
            ?_, ?_⟩
          · rw [hrun]
            show (service_phase _ _ _ _ _).2.1 = _
            rw [hrecS, hrecC, hrecE]
          · intro p hp
            exact hmonoPkC p (by rw [hrecE]; exact hp)
          · intro n hn
            exact hmonoNpC n (by rw [hrecE]; exact hn)
          · intro hset
            exact hmonoSC (by rw [hrecE]; exact hset)
          · intro hbd
            exact hmonoBC (by rw [hrecE]; exact hbd)
          · intro hsu
            apply hmonoS
            rw [hrecC, hrecE]
            exact hsu
          · intro hauto
            rw [hskipS hauto, hrecC, hrecE]
          · intro _
            obtain ⟨hcs, hcb, hcpk, hcnp⟩ := hokC hok2
            refine ⟨hcs, hcb, ?_, ?_⟩
            · rw [hcpk, hrecE]
            · rw [hcnp, hrecE]
          · intro hauto _
            rw [hevents, fullTrace]
            exact ⟨by decide, by decide⟩
          · intro hauto _
            refine ⟨?_, ?_, ?_⟩
            · intro hx
              have hsc := service_phase_err_of_setup env config (get_config_dir env.home)
                (get_install_dir env.home)
                ((config_phase env config (extract_phase env fs).2.1).2.1) _ hauto
                (setup_service_err_xdg env _ _ _ hx)
              rw [hok3] at hsc
              exact absurd hsc (by simp)
            · intro e hx hd
              have hsc := service_phase_err_of_setup env config (get_config_dir env.home)
                (get_install_dir env.home)
                ((config_phase env config (extract_phase env fs).2.1).2.1) _ hauto
                (setup_service_err_mkdir env _ _ _ e hx hd)
              rw [hok3] at hsc
              exact absurd hsc (by simp)
            · intro hx hd
              refine ⟨fun hws => (hokS hauto hx hd hws).1, ?_⟩
              intro e hws
              have hmsg := herrS e hauto hx hd hws
              rw [hok3] at hmsg
              exact absurd hmsg (by simp)
        · -- verify failed (settings missing at verification time)
          have hrun : run_installation env config fs
              = { events := [exIp1, exIp2, exC, cfIp, cfC, svIp, svC, vfIp],
                  fs := (service_phase env config (get_config_dir env.home)
                    (get_install_dir env.home)
                    ((config_phase env config (extract_phase env fs).2.1).2.1)).2.1,
                  result := .error e4 } := by
            simp [run_installation, hok1, hev1, hok2, hev2, hok3, hev3, herr4, hev4,
              hrecV]
          have hevents : (run_installation env config fs).events
              = [exIp1, exIp2, exC, cfIp, cfC, svIp, svC, vfIp] := by
            rw [hrun]
          have hresult : (run_installation env config fs).result = .error e4 := by
            rw [hrun]
          refine ⟨cs, cb, cpk, cnp, enb, enm, est, ssu, ?gc1, ?gc2, ?gc3, ?gc4, ?gc5, ?gc6,
            hmonoNbE, hmonoStE, hskipNbE, hskipStE, ?_, ?_,
            fun _ hbn => hokNbE hok1 hbn, fun _ hbs => hokStE hok1 hbs,
            ?gc7, ?gc8, ?gc9⟩
          · rw [hrun]
            show (service_phase _ _ _ _ _).2.1 = _
            rw [hrecS, hrecC, hrecE]
          · intro p hp
            exact hmonoPkC p (by rw [hrecE]; exact hp)
          · intro n hn
            exact hmonoNpC n (by rw [hrecE]; exact hn)
          · intro hset
            exact hmonoSC (by rw [hrecE]; exact hset)
          · intro hbd
            exact hmonoBC (by rw [hrecE]; exact hbd)
          · intro hsu
            apply hmonoS
            rw [hrecC, hrecE]
            exact hsu
          · intro hauto
            rw [hskipS hauto, hrecC, hrecE]
          · intro _
            obtain ⟨hcs, hcb, hcpk, hcnp⟩ := hokC hok2
            refine ⟨hcs, hcb, ?_, ?_⟩
            · rw [hcpk, hrecE]
            · rw [hcnp, hrecE]
          · intro hok
            rw [hresult] at hok
            exact absurd hok (by simp)
          · intro hauto _
            rw [hevents]
            exact ⟨by decide, by decide⟩
          · intro hauto _
            refine ⟨?_, ?_, ?_⟩
            · intro hx
              have hsc := service_phase_err_of_setup env config (get_config_dir env.home)
                (get_install_dir env.home)
                ((config_phase env config (extract_phase env fs).2.1).2.1) _ hauto
                (setup_service_err_xdg env _ _ _ hx)
              rw [hok3] at hsc
              exact absurd hsc (by simp)
            · intro e hx hd
              have hsc := service_phase_err_of_setup env config (get_config_dir env.home)
                (get_install_dir env.home)
                ((config_phase env config (extract_phase env fs).2.1).2.1) _ hauto
                (setup_service_err_mkdir env _ _ _ e hx hd)
              rw [hok3] at hsc
              exact absurd hsc (by simp)
            · intro hx hd
              refine ⟨fun hws => (hokS hauto hx hd hws).1, ?_⟩
              intro e hws
              have hmsg := herrS e hauto hx hd hws
              rw [hok3] at hmsg
              exact absurd hmsg (by simp)
      · -- service failed
        have hrun : run_installation env config fs
            = { events := [exIp1, exIp2, exC, cfIp, cfC, svIp],
                fs := (service_phase env config (get_config_dir env.home)
                  (get_install_dir env.home)
                  ((config_phase env config (extract_phase env fs).2.1).2.1)).2.1,
                result := .error e3 } := by
          simp [run_installation, hok1, hev1, hok2, hev2, herr3, hev3]
        have hevents : (run_installation env config fs).events
            = [exIp1, exIp2, exC, cfIp, cfC, svIp] := by
          rw [hrun]
        have hresult : (run_installation env config fs).result = .error e3 := by
          rw [hrun]
        refine ⟨cs, cb, cpk, cnp, enb, enm, est, ssu, ?gd1, ?gd2, ?gd3, ?gd4, ?gd5, ?gd6,
          hmonoNbE, hmonoStE, hskipNbE, hskipStE, ?_, ?_,
          fun _ hbn => hokNbE hok1 hbn, fun _ hbs => hokStE hok1 hbs,
          ?gd7, ?gd8, ?gd9⟩
        · rw [hrun]
          show (service_phase _ _ _ _ _).2.1 = _
          rw [hrecS, hrecC, hrecE]
        · intro p hp
          exact hmonoPkC p (by rw [hrecE]; exact hp)
        · intro n hn
          exact hmonoNpC n (by rw [hrecE]; exact hn)
        · intro hset
          exact hmonoSC (by rw [hrecE]; exact hset)
        · intro hbd
          exact hmonoBC (by rw [hrecE]; exact hbd)
        · intro hsu
          apply hmonoS
          rw [hrecC, hrecE]
          exact hsu
        · intro hauto
          rw [hskipS hauto, hrecC, hrecE]
        · intro _
          obtain ⟨hcs, hcb, hcpk, hcnp⟩ := hokC hok2
          refine ⟨hcs, hcb, ?_, ?_⟩
          · rw [hcpk, hrecE]
          · rw [hcnp, hrecE]
        · intro hok
          rw [hresult] at hok
          exact absurd hok (by simp)
        · intro hauto _
          have hsvc : (service_phase env config (get_config_dir env.home)
              (get_install_dir env.home)
              ((config_phase env config (extract_phase env fs).2.1).2.1)).2.2
              = .ok () := by
            simp [service_phase, hauto]
          rw [herr3] at hsvc
          exact absurd hsvc (by simp)
        · intro hauto _
          refine ⟨?_, ?_, ?_⟩
          · intro hx
            have hsc := service_phase_err_of_setup env config (get_config_dir env.home)
              (get_install_dir env.home)
              ((config_phase env config (extract_phase env fs).2.1).2.1) _ hauto
              (setup_service_err_xdg env _ _ _ hx)
            rw [herr3] at hsc
            rw [hresult]
            exact hsc
          · intro e hx hd
            have hsc := service_phase_err_of_setup env config (get_config_dir env.home)
              (get_install_dir env.home)
              ((config_phase env config (extract_phase env fs).2.1).2.1) _ hauto
              (setup_service_err_mkdir env _ _ _ e hx hd)
            rw [herr3] at hsc
            rw [hresult]
            exact hsc
          · intro hx hd
            refine ⟨fun hws => (hokS hauto hx hd hws).1, ?_⟩
            intro e hws
            have hmsg := herrS e hauto hx hd hws
            rw [herr3] at hmsg
            rw [hresult]
            exact hmsg
    · -- config failed
      have hrun : run_installation env config fs
          = { events := [exIp1, exIp2, exC, cfIp],
              fs := (config_phase env config (extract_phase env fs).2.1).2.1,
              result := .error e2 } := by
        simp [run_installation, hok1, hev1, herr2, hev2]
      have hevents : (run_installation env config fs).events
          = [exIp1, exIp2, exC, cfIp] := by
        rw [hrun]
      have hresult : (run_installation env config fs).result = .error e2 := by
        rw [hrun]
      refine ⟨cs, cb, cpk, cnp, enb, enm, est, fs.serviceUnit, ?gb1, ?gb2, ?gb3, ?gb4, ?gb5,
        fun h => h, hmonoNbE, hmonoStE, hskipNbE, hskipStE, fun _ => rfl, ?_,
        fun _ hbn => hokNbE hok1 hbn, fun _ hbs => hokStE hok1 hbs,
        ?gb7, ?gb8, ?gb9⟩
      · rw [hrun]
        show (config_phase _ _ _).2.1 = _
        rw [hrecC, hrecE]
      · intro p hp
        exact hmonoPkC p (by rw [hrecE]; exact hp)
      · intro n hn
        exact hmonoNpC n (by rw [hrecE]; exact hn)
      · intro hset
        exact hmonoSC (by rw [hrecE]; exact hset)
      · intro hbd
        exact hmonoBC (by rw [hrecE]; exact hbd)
      · intro hmem
        rw [hevents] at hmem
        exact absurd hmem (by decide)
      · intro hok
        rw [hresult] at hok
        exact absurd hok (by simp)
      · intro _ hmem
        rw [hevents] at hmem
        exact absurd hmem (by decide)
      · intro _ hmem
        rw [hevents] at hmem
        exact absurd hmem (by decide)
  · -- extract failed
    rcases hev1 with hev1 | hev1 <;>
      [(have hrun : run_installation env config fs
          = { events := [exIp1], fs := (extract_phase env fs).2.1,
              result := .error e1 } := by
          simp [run_installation, herr1, hev1]);
       (have hrun : run_installation env config fs
          = { events := [exIp1, exIp2], fs := (extract_phase env fs).2.1,
              result := .error e1 } := by
          simp [run_installation, herr1, hev1])] <;>
    · have hresult : (run_installation env config fs).result = .error e1 := by
        rw [hrun]
      have hevents := congrArg RunResult.events hrun
      simp only [] at hevents
      refine ⟨fs.settings, fs.baseDeltas, fs.packageJson, fs.npmrc, enb, enm, est,
        fs.serviceUnit, ?_, fun p hp => hp, fun n hn => hn, fun h => h, fun h => h,
        fun h => h, hmonoNbE, hmonoStE, hskipNbE, hskipStE, fun _ => rfl,
        (by intro hmem; rw [hevents] at hmem; exact absurd hmem (by decide)),
        (by intro hmem; rw [hevents] at hmem; exact absurd hmem (by decide)),
        (by intro hmem; rw [hevents] at hmem; exact absurd hmem (by decide)),
        (by intro hok2; rw [hresult] at hok2; exact absurd hok2 (by simp)),
        ?_, ?_⟩
      · rw [hrun]
        show (extract_phase _ _).2.1 = _
        exact hrecE
      · intro _ hmem
        rw [hevents] at hmem
        exact absurd hmem (by decide)
      · intro _ hmem
        rw [hevents] at hmem
        exact absurd hmem (by decide)

/-- When every operation a run attempts succeeds (each bundled resource is
either absent, so its copy is skipped, or copied without error), the run
returns `Ok`. -/
theorem run_success (env : InstallEnv) (config : InstallerConfig) (fs : FS)
    (h1 : env.createConfigDir = none) (h2 : env.createInstallDir = none)
    (h3 : env.resourceDir = none)
    (h4 : env.bundledNodeExists = false
      ∨ (env.copyNode = none ∧ env.nodeMetadata = none ∧ env.setNodePerms = none))
    (h5 : env.bundledServerExists = false ∨ env.copyServer = none)
    (h6 : env.writeSettings = none) (h7 : env.writeBaseDeltas = none)
    (h8 : env.writePackage = none) (h9 : env.writeNpmrc = none)
    (h10 : env.xdgConfig.isSome = true) (h11 : env.createSystemdDir = none)
    (h12 : env.writeService = none) :
    (run_installation env config fs).result = .ok () := by
  have hcnOk : ∀ f : FS, (copy_node_step env f).2 = none := by
    intro f
    rcases h4 with h4 | ⟨h4a, h4b, h4c⟩
    · simp [copy_node_step, h4]
    · rcases hb : env.bundledNodeExists with _ | _ <;>
        simp [copy_node_step, hb, h4a, h4b, h4c]
  have hcsOk : ∀ f : FS, (copy_server_step env f).2 = none := by
    intro f
    rcases h5 with h5 | h5
    · simp [copy_server_step, h5]
    · rcases hb : env.bundledServerExists with _ | _ <;>
        simp [copy_server_step, hb, h5]
  have hex : (extract_phase env fs).2.2 = .ok () := by
    simp [extract_phase, h1, h2, h3, hcnOk, hcsOk]
  have hwp : ∀ f : FS, (write_package_step env f).2 = none := by
    intro f
    rcases hp : f.packageJson with _ | p <;> simp [write_package_step, hp, h8]
  have hwn : ∀ f : FS, (write_npmrc_step env f).2 = none := by
    intro f
    rcases hp : f.npmrc with _ | n <;> simp [write_npmrc_step, hp, h9]
  have hcf : ∀ f : FS, (config_phase env config f).2.2 = .ok () := by
    intro f
    simp [config_phase, h6, h7, hwp, hwn]
  have hsv : ∀ cd idir f, (service_phase env config cd idir f).2.2 = .ok () := by
    intro cd idir f
    rcases hauto : config.enable_auto_start with _ | _
    · simp [service_phase, hauto]
    · rcases hx : env.xdgConfig with _ | x
      · rw [hx] at h10
        exact absurd h10 (by simp)
      · simp [service_phase, hauto, setup_service, create_systemd_service, hx,
          h11, h12]
  have hset : ∀ f : FS, ((config_phase env config f).2.1).settings.isSome = true := by
    intro f
    obtain ⟨cs, cb, cpk, cnp, hrecC, _, _, _, _, hokC⟩ := config_phase_fs env config f
    obtain ⟨hcs, _, _, _⟩ := hokC (hcf f)
    rw [hrecC]
    simp [hcs]
  obtain ⟨ssu, hrecS, _, _, _, _⟩ :=
    service_phase_fs env config (get_config_dir env.home) (get_install_dir env.home)
      ((config_phase env config (extract_phase env fs).2.1).2.1)
  simp only [run_installation]
  simp [hex, hcf, hsv]
  rw [(verify_phase_fs _).2, hrecS]
  exact hset _

/-- C6: if the bundled runtime executable or the bundled server directory
tree (or both) is absent from the resource location (and every operation the
run does attempt succeeds), the extract phase silently skips the copy of each
absent bundle — leaving that part of the install directory unchanged — and
still completes (`extract completed` is emitted, never a failure), and the
orchestration proceeds through configure and verify to a successful result
with the full event trace. -/
theorem extract_skips_missing_bundles (env : InstallEnv) (config : InstallerConfig)
    (fs : FS)
    (hnode : env.bundledNodeExists = false
      ∨ (env.copyNode = none ∧ env.nodeMetadata = none ∧ env.setNodePerms = none))
    (hserver : env.bundledServerExists = false ∨ env.copyServer = none)
    (h1 : env.createConfigDir = none) (h2 : env.createInstallDir = none)
    (h3 : env.resourceDir = none)
    (h6 : env.writeSettings = none) (h7 : env.writeBaseDeltas = none)
    (h8 : env.writePackage = none) (h9 : env.writeNpmrc = none)
    (h10 : env.xdgConfig.isSome = true) (h11 : env.createSystemdDir = none)
    (h12 : env.writeService = none) :
    (run_installation env config fs).result = .ok ()
    ∧ (run_installation env config fs).events = fullTrace
    ∧ exC ∈ (run_installation env config fs).events
    ∧ cfIp ∈ (run_installation env config fs).events
    ∧ vfC ∈ (run_installation env config fs).events
    ∧ (env.bundledNodeExists = false
        → (run_installation env config fs).fs.nodeBinary = fs.nodeBinary)
    ∧ (env.bundledServerExists = false
        → (run_installation env config fs).fs.serverTree = fs.serverTree) := by
  have hok := run_success env config fs h1 h2 h3 hnode hserver h6 h7 h8 h9 h10 h11 h12
  have hev : (run_installation env config fs).events = fullTrace := by
    rcases run_trace_cases env config fs with ⟨_, hev⟩ | ⟨⟨msg, herr, _⟩, _⟩
    · exact hev
    · rw [herr] at hok
      exact absurd hok (by simp)
  obtain ⟨s, b, pk, np, nb, nm, st, su, hfs, _u1, _u2, _u3, _u4, _u5, _u6, _u7, hh, hi,
    _u8, _u9, _u10, _u14, _u11, _u12, _u13⟩ := run_fs_spec env config fs
  refine ⟨hok, hev, ?mexc, ?mcfip, ?mvfc, ?hnodeu, ?hservu⟩
  · rw [hev, fullTrace]
    decide
  · rw [hev, fullTrace]
    decide
  · rw [hev, fullTrace]
    decide
  · intro hn
    rw [hfs]
    exact hh hn
  · intro hs
    rw [hfs]
    exact hi hs

/-- Witness for C6 at both single-absent scenarios: with only the runtime
bundle missing the run succeeds and no runtime binary appears, and with only
the server tree missing the run succeeds and no server tree appears. -/
theorem extract_skips_missing_bundles_witness :
    ((run_installation { envAllOk with bundledNodeExists := false }
        cfgDefault fsEmpty).result = .ok ()
      ∧ (run_installation { envAllOk with bundledNodeExists := false }
          cfgDefault fsEmpty).fs.nodeBinary = false)
    ∧ ((run_installation { envAllOk with bundledServerExists := false }
        cfgDefault fsEmpty).result = .ok ()
      ∧ (run_installation { envAllOk with bundledServerExists := false }
          cfgDefault fsEmpty).fs.serverTree = false) :=
  ⟨⟨(extract_skips_missing_bundles { envAllOk with bundledNodeExists := false }
      cfgDefault fsEmpty (Or.inl rfl) (Or.inr rfl)
      rfl rfl rfl rfl rfl rfl rfl rfl rfl rfl).1,
    (extract_skips_missing_bundles { envAllOk with bundledNodeExists := false }
      cfgDefault fsEmpty (Or.inl rfl) (Or.inr rfl)
      rfl rfl rfl rfl rfl rfl rfl rfl rfl rfl).2.2.2.2.2.1 rfl⟩,
   ⟨(extract_skips_missing_bundles { envAllOk with bundledServerExists := false }
      cfgDefault fsEmpty (Or.inr ⟨rfl, rfl, rfl⟩) (Or.inl rfl)
      rfl rfl rfl rfl rfl rfl rfl rfl rfl rfl).1,
    (extract_skips_missing_bundles { envAllOk with bundledServerExists := false }
      cfgDefault fsEmpty (Or.inr ⟨rfl, rfl, rfl⟩) (Or.inl rfl)
      rfl rfl rfl rfl rfl rfl rfl rfl rfl rfl).2.2.2.2.2.2 rfl⟩⟩

/-- C3: for every configuration with a non-empty numeric maritime identifier
`m`, the derived vessel identifier equals `urn:mrn:imo:mmsi:m`; for an empty
identifier it is `urn:mrn:signalk:uuid:<u>` with `u` a 36-character _v4-format
UUID, and it differs across repeated runs (runs drawing distinct fresh
randomness); a successful run writes exactly this identifier into the
base-deltas document. -/
theorem derive_vessel_uuid_spec (m : String) (r ra rb : Nat)
    (env : InstallEnv) (config : InstallerConfig) (fs : FS)
    (hm : m ≠ "") (hr1 : ra < 2 ^ 122) (hr2 : rb < 2 ^ 122) (hne : ra ≠ rb) :
    derive_vessel_uuid m r = "urn:mrn:imo:mmsi:" ++ m
    ∧ (∃ u, derive_vessel_uuid "" r = "urn:mrn:signalk:uuid:" ++ u
        ∧ u.length = 36 ∧ isV4Format u = true)
    ∧ derive_vessel_uuid "" ra ≠ derive_vessel_uuid "" rb
    ∧ ((run_installation env config fs).result = .ok () →
        (run_installation env config fs).fs.baseDeltas
          = some (baseDeltasDoc config.vessel_name
              (derive_vessel_uuid config.mmsi env.rand))) := by
  refine ⟨?_, ⟨uuidV4String r, rfl, uuidV4String_length r, uuidV4String_isV4Format r⟩,
    ?_, ?_⟩
  · simp [derive_vessel_uuid, hm]
  · intro hcontra
    rw [show derive_vessel_uuid "" ra = "urn:mrn:signalk:uuid:" ++ uuidV4String ra
          from by simp [derive_vessel_uuid],
        show derive_vessel_uuid "" rb = "urn:mrn:signalk:uuid:" ++ uuidV4String rb
          from by simp [derive_vessel_uuid]] at hcontra
    have hdata := congrArg String.data hcontra
    rw [String.data_append, String.data_append] at hdata
    have hlist := List.append_cancel_left hdata
    have hstr : uuidV4String ra = uuidV4String rb := by
      apply congrArg String.mk hlist
    exact hne (uuidV4String_injOn ra rb hr1 hr2 hstr)
  · intro hok
    obtain ⟨s, b, pk, np, nb, nm2, st, su, hfs, _v1, _v2, _v3, _v4, _v5, _v6, _v7, _v8,
      _v9, _v10, hk, _v11, _v14, hmem, _v12, _v13⟩ := run_fs_spec env config fs
    obtain ⟨_, hcb, _, _⟩ := hk (hmem hok)
    rw [hfs]
    exact hcb

/-- Witness for C3 at concrete inputs: MMSI `123456789` and the two fresh
random draws 0 and 1 on the all-success run. -/
theorem derive_vessel_uuid_spec_witness :
    derive_vessel_uuid "123456789" 0 = "urn:mrn:imo:mmsi:123456789"
    ∧ derive_vessel_uuid "" 0 ≠ derive_vessel_uuid "" 1
    ∧ (run_installation envAllOk cfgDefault fsEmpty).fs.baseDeltas
        = some (baseDeltasDoc "Test" (derive_vessel_uuid "" 0)) := by
  obtain ⟨ha, _, hc, hd⟩ := derive_vessel_uuid_spec "123456789" 0 0 1
    envAllOk cfgDefault fsEmpty (by decide) (by norm_num) (by norm_num) (by decide)
  exact ⟨ha, hc, hd rfl⟩

/-- C4: running the installation twice against the same configuration
directory never overwrites a pre-existing `package.json` or `.npmrc` (each is
written only if absent — after a successful first run the second run leaves
them exactly as the first run left them), while `settings.json` and
`baseDeltas.json` are always overwritten: after the second successful run they
hold the second run's documents. -/
theorem config_overwrite_policy (env1 env2 : InstallEnv)
    (cfg1 cfg2 : InstallerConfig) (fs0 : FS) :
    (∀ p, fs0.packageJson = some p →
      (run_installation env1 cfg1 fs0).fs.packageJson = some p
      ∧ (run_installation env2 cfg2
          (run_installation env1 cfg1 fs0).fs).fs.packageJson = some p)
    ∧ (∀ n, fs0.npmrc = some n →
      (run_installation env1 cfg1 fs0).fs.npmrc = some n
      ∧ (run_installation env2 cfg2
          (run_installation env1 cfg1 fs0).fs).fs.npmrc = some n)
    ∧ ((run_installation env1 cfg1 fs0).result = .ok () →
      (run_installation env2 cfg2
          (run_installation env1 cfg1 fs0).fs).fs.packageJson
        = (run_installation env1 cfg1 fs0).fs.packageJson
      ∧ (run_installation env2 cfg2
          (run_installation env1 cfg1 fs0).fs).fs.npmrc
        = (run_installation env1 cfg1 fs0).fs.npmrc)
    ∧ ((run_installation env2 cfg2 (run_installation env1 cfg1 fs0).fs).result
        = .ok () →
      (run_installation env2 cfg2 (run_installation env1 cfg1 fs0).fs).fs.settings
        = some (settingsDoc cfg2)
      ∧ (run_installation env2 cfg2
          (run_installation env1 cfg1 fs0).fs).fs.baseDeltas
        = some (baseDeltasDoc cfg2.vessel_name
            (derive_vessel_uuid cfg2.mmsi env2.rand))) := by
  obtain ⟨s1, b1, pk1, np1, nb1, nm1, st1, su1, hfs1, ha1, hb1, _w1, _w2, _w3, _w4, _w5,
    _w6, _w7, _w8, hk1, _w9, _w12, hm1, _w10, _w11⟩ := run_fs_spec env1 cfg1 fs0
  obtain ⟨s2, b2, pk2, np2, nb2, nm2, st2, su2, hfs2, ha2, hb2, _x1, _x2, _x3, _x4, _x5,
    _x6, _x7, _x8, hk2, _x9, _x12, hm2, _x10, _x11⟩
    := run_fs_spec env2 cfg2 (run_installation env1 cfg1 fs0).fs
  refine ⟨?wpk, ?wnp, ?wsecond, ?wdocs⟩
  · intro p hp
    have h1p : (run_installation env1 cfg1 fs0).fs.packageJson = some p := by
      rw [hfs1]
      exact ha1 p hp
    refine ⟨h1p, ?_⟩
    rw [hfs2]
    exact ha2 p h1p
  · intro n hn
    have h1n : (run_installation env1 cfg1 fs0).fs.npmrc = some n := by
      rw [hfs1]
      exact hb1 n hn
    refine ⟨h1n, ?_⟩
    rw [hfs2]
    exact hb2 n h1n
  · intro hok1
    obtain ⟨_, _, hpk1, hnp1⟩ := hk1 (hm1 hok1)
    have h1p : (run_installation env1 cfg1 fs0).fs.packageJson
        = some (fs0.packageJson.getD packageJsonDoc) := by
      rw [hfs1]
      exact hpk1
    have h1n : (run_installation env1 cfg1 fs0).fs.npmrc
        = some (fs0.npmrc.getD "package-lock=false\n") := by
      rw [hfs1]
      exact hnp1
    constructor
    · rw [hfs2, h1p]
      exact ha2 _ h1p
    · rw [hfs2, h1n]
      exact hb2 _ h1n
  · intro hok2
    obtain ⟨hcs2, hcb2, _, _⟩ := hk2 (hm2 hok2)
    exact ⟨by rw [hfs2]; exact hcs2, by rw [hfs2]; exact hcb2⟩

/-- A pre-existing plugin manifest with a non-empty dependency mapping. -/
def keptPackage : PackageData :=
  { name := "signalk-config", version := "1.2.3", description := "kept",
    dependencies := [("plugin", "1.0")] }

/-- A filesystem that already carries a manifest and an npm configuration. -/
def fsPre : FS :=
  { fsEmpty with packageJson := some keptPackage, npmrc := some "keep-me\n" }

/-- Witness for C4 at concrete inputs: a filesystem with a pre-existing
manifest and npm configuration, run twice with different configurations. -/
theorem config_overwrite_policy_witness :
    (run_installation { envAllOk with rand := 1 }
      { cfgDefault with mmsi := "123456789" }
      (run_installation envAllOk cfgDefault fsPre).fs).fs.packageJson
      = some keptPackage
    ∧ (run_installation { envAllOk with rand := 1 }
      { cfgDefault with mmsi := "123456789" }
      (run_installation envAllOk cfgDefault fsPre).fs).fs.npmrc = some "keep-me\n"
    ∧ (run_installation { envAllOk with rand := 1 }
      { cfgDefault with mmsi := "123456789" }
      (run_installation envAllOk cfgDefault fsPre).fs).fs.settings
      = some (settingsDoc { cfgDefault with mmsi := "123456789" }) := by
  obtain ⟨ha, hb, _, hd⟩ := config_overwrite_policy envAllOk
    { envAllOk with rand := 1 } cfgDefault { cfgDefault with mmsi := "123456789" }
    fsPre
  exact ⟨(ha _ rfl).2, (hb _ rfl).2, (hd (by rfl)).1⟩

/-- C7: with auto-start disabled, the register-service phase writes no
service descriptor (the descriptor file is untouched) yet is still reported
as `completed` with no message once the run reaches it; with auto-start
enabled it delegates to the systemd unit generator — on success the rendered
unit is written, and a failing write is fatal, surfacing as the run's error. -/
theorem service_phase_policy (env : InstallEnv) (config : InstallerConfig) (fs : FS) :
    (config.enable_auto_start = false →
      (run_installation env config fs).fs.serviceUnit = fs.serviceUnit
      ∧ (cfC ∈ (run_installation env config fs).events →
          svC ∈ (run_installation env config fs).events))
    ∧ (config.enable_auto_start = true →
      cfC ∈ (run_installation env config fs).events →
      (env.xdgConfig = none →
        (run_installation env config fs).result
          = .error "Could not determine systemd user directory")
      ∧ (∀ e, env.xdgConfig.isSome = true → env.createSystemdDir = some e →
          (run_installation env config fs).result
            = .error ("Failed to create systemd directory: " ++ e))
      ∧ (env.xdgConfig.isSome = true → env.createSystemdDir = none →
        (env.writeService = none →
          (run_installation env config fs).fs.serviceUnit
            = (create_systemd_service (get_config_dir env.home)
                (get_install_dir env.home ++ "/node")
                (get_install_dir env.home ++ "/signalk-server/bin/signalk-server")).toOption)
        ∧ (∀ e, env.writeService = some e →
            (run_installation env config fs).result
              = .error ("Failed to write systemd service: " ++ e)))) := by
  obtain ⟨s, b, pk, np, nb, nm, st, su, hfs, _y1, _y2, _y3, _y4, _y5, _y6, _y7, _y8, _y9,
    hj, _y10, _y11, _y13, _y12, ho, hn⟩ := run_fs_spec env config fs
  constructor
  · intro hauto
    refine ⟨?_, fun hcf => (ho hauto hcf).2⟩
    rw [hfs]
    exact hj hauto
  · intro hauto hcf
    refine ⟨(hn hauto hcf).1, (hn hauto hcf).2.1, ?_⟩
    intro hx hd
    refine ⟨?_, ((hn hauto hcf).2.2 hx hd).2⟩
    intro hws
    rw [hfs]
    exact ((hn hauto hcf).2.2 hx hd).1 hws

/-- Witness for C7: with auto-start off the descriptor stays absent and the
service step completes; with auto-start on the rendered unit is written when
the write succeeds, and each of the three failure points — unresolvable
systemd user directory, directory creation, unit write — aborts the run with
its error. -/
theorem service_phase_policy_witness :
    ((run_installation envAllOk cfgDefault fsEmpty).fs.serviceUnit = none
      ∧ svC ∈ (run_installation envAllOk cfgDefault fsEmpty).events)
    ∧ (run_installation envAllOk { cfgDefault with enable_auto_start := true }
        fsEmpty).fs.serviceUnit
      = (create_systemd_service (get_config_dir envAllOk.home)
          (get_install_dir envAllOk.home ++ "/node")
          (get_install_dir envAllOk.home ++ "/signalk-server/bin/signalk-server")).toOption
    ∧ (run_installation { envAllOk with xdgConfig := none }
        { cfgDefault with enable_auto_start := true } fsEmpty).result
      = .error "Could not determine systemd user directory"
    ∧ (run_installation { envAllOk with createSystemdDir := some "mkdir failed" }
        { cfgDefault with enable_auto_start := true } fsEmpty).result
      = .error ("Failed to create systemd directory: " ++ "mkdir failed")
    ∧ (run_installation { envAllOk with writeService := some "no space" }
        { cfgDefault with enable_auto_start := true } fsEmpty).result
      = .error ("Failed to write systemd service: " ++ "no space") := by
  refine ⟨⟨?woff, ?wmem⟩, ?won, ?wxdg, ?wmkdir, ?wwrite⟩
  · exact ((service_phase_policy envAllOk cfgDefault fsEmpty).1 rfl).1
  · exact ((service_phase_policy envAllOk cfgDefault fsEmpty).1 rfl).2 (by decide)
  · exact (((service_phase_policy envAllOk
      { cfgDefault with enable_auto_start := true } fsEmpty).2 rfl (by decide)).2.2
      rfl rfl).1 rfl
  · exact ((service_phase_policy { envAllOk with xdgConfig := none }
      { cfgDefault with enable_auto_start := true } fsEmpty).2 rfl (by decide)).1 rfl
  · exact ((service_phase_policy { envAllOk with createSystemdDir := some "mkdir failed" }
      { cfgDefault with enable_auto_start := true } fsEmpty).2 rfl (by decide)).2.1
      "mkdir failed" rfl rfl
  · exact (((service_phase_policy { envAllOk with writeService := some "no space" }
      { cfgDefault with enable_auto_start := true } fsEmpty).2 rfl (by decide)).2.2
      rfl rfl).2 "no space" rfl

/-- C9: when any orchestration phase fails, the remaining sequence is aborted
immediately — the trace is truncated at the failing step, with no terminal
event for it and no later step run, so no `verify completed` is ever emitted —
and a single non-empty descriptive error is returned; nothing written earlier
is rolled back: pre-existing and earlier-written files survive, once `config
completed` was emitted the configuration documents (including the fresh
`package.json` and `.npmrc` if they were absent) keep the values written this
run, and a completed extract leaves the copied runtime binary and server tree
in place. -/
theorem failure_aborts_without_rollback (env : InstallEnv)
    (config : InstallerConfig) (fs : FS) (msg : String)
    (h : (run_installation env config fs).result = .error msg) :
    msg ≠ ""
    ∧ vfC ∉ (run_installation env config fs).events
    ∧ failureTruncated (run_installation env config fs).events = true
    ∧ (fs.settings.isSome → (run_installation env config fs).fs.settings.isSome)
    ∧ (fs.baseDeltas.isSome → (run_installation env config fs).fs.baseDeltas.isSome)
    ∧ (∀ p, fs.packageJson = some p
        → (run_installation env config fs).fs.packageJson = some p)
    ∧ (∀ n, fs.npmrc = some n
        → (run_installation env config fs).fs.npmrc = some n)
    ∧ (fs.serviceUnit.isSome
        → (run_installation env config fs).fs.serviceUnit.isSome)
    ∧ (fs.nodeBinary = true → (run_installation env config fs).fs.nodeBinary = true)
    ∧ (fs.serverTree = true → (run_installation env config fs).fs.serverTree = true)
    ∧ (cfC ∈ (run_installation env config fs).events →
        (run_installation env config fs).fs.settings = some (settingsDoc config)
        ∧ (run_installation env config fs).fs.baseDeltas
          = some (baseDeltasDoc config.vessel_name
              (derive_vessel_uuid config.mmsi env.rand))
        ∧ (run_installation env config fs).fs.packageJson
          = some (fs.packageJson.getD packageJsonDoc)
        ∧ (run_installation env config fs).fs.npmrc
          = some (fs.npmrc.getD "package-lock=false\n"))
    ∧ (exC ∈ (run_installation env config fs).events
        → env.bundledNodeExists = true
        → (run_installation env config fs).fs.nodeBinary = true)
    ∧ (exC ∈ (run_installation env config fs).events
        → env.bundledServerExists = true
        → (run_installation env config fs).fs.serverTree = true) := by
  obtain ⟨s, b, pk, np, nb, nm, st, su, hfs, ha, hb, hc, hd, he, hf, hg, _r1, _r2,
    _r3, hk, hl, hl2, _r4, _r5, _r6⟩ := run_fs_spec env config fs
  have hmsg : msg ≠ "" ∧ (vfC ∉ (run_installation env config fs).events
      ∧ failureTruncated (run_installation env config fs).events = true) := by
    rcases run_trace_cases env config fs with ⟨hok, _⟩ | ⟨⟨msg2, herr, hne⟩, hevs⟩
    · rw [h] at hok
      exact absurd hok (by simp)
    · rw [h] at herr
      have : msg = msg2 := (Except.error.injEq _ _).mp herr
      subst this
      refine ⟨hne, ?_⟩
      rcases hevs with hv | hv | hv | hv | hv <;> rw [hv] <;>
        exact ⟨by decide, by decide⟩
  refine ⟨hmsg.1, hmsg.2.1, hmsg.2.2, ?pse, ?pbd, ?ppk, ?pnp, ?psu, ?pnb, ?pst,
    ?pcf, ?pex, ?psrv⟩
  · intro hp
    rw [hfs]
    exact hc hp
  · intro hp
    rw [hfs]
    exact hd hp
  · intro p hp
    rw [hfs]
    exact ha p hp
  · intro n hn
    rw [hfs]
    exact hb n hn
  · intro hp
    rw [hfs]
    exact he hp
  · intro hp
    rw [hfs]
    exact hf hp
  · intro hp
    rw [hfs]
    exact hg hp
  · intro hcf
    obtain ⟨hcs, hcb, hcpk, hcnp⟩ := hk hcf
    exact ⟨by rw [hfs]; exact hcs, by rw [hfs]; exact hcb,
      by rw [hfs]; exact hcpk, by rw [hfs]; exact hcnp⟩
  · intro hex hbn
    rw [hfs]
    exact hl hex hbn
  · intro hex hbs
    rw [hfs]
    exact hl2 hex hbs

/-- Witness for C9: a concrete run in which writing the systemd unit fails —
the run errors with a non-empty message, the trace is truncated at the
failing service step (verify never starts), and the settings document and the
fresh `package.json` written by the completed config phase survive. -/
theorem failure_aborts_without_rollback_witness :
    ("Failed to write systemd service: denied" : String) ≠ ""
    ∧ vfC ∉ (run_installation { envAllOk with writeService := some "denied" }
        { cfgDefault with enable_auto_start := true } fsEmpty).events
    ∧ failureTruncated (run_installation { envAllOk with writeService := some "denied" }
        { cfgDefault with enable_auto_start := true } fsEmpty).events = true
    ∧ (run_installation { envAllOk with writeService := some "denied" }
        { cfgDefault with enable_auto_start := true } fsEmpty).fs.settings
      = some (settingsDoc { cfgDefault with enable_auto_start := true })
    ∧ (run_installation { envAllOk with writeService := some "denied" }
        { cfgDefault with enable_auto_start := true } fsEmpty).fs.packageJson
      = some packageJsonDoc := by
  obtain ⟨h1, h2, h3, _z1, _z2, _z3, _z4, _z5, _z6, _z7, hk, _z8, _z9⟩ :=
    failure_aborts_without_rollback
    { envAllOk with writeService := some "denied" }
    { cfgDefault with enable_auto_start := true } fsEmpty
    "Failed to write systemd service: denied" (by rfl)
  exact ⟨h1, h2, h3, (hk (by decide)).1, (hk (by decide)).2.2.1⟩

/-- C10: the `service` `in_progress` event (message `Configuring
auto-start...`) is emitted before the auto-start flag is consulted: in every
run of every configuration, reaching the service phase (having emitted
`config completed`) means the `service` `in_progress` event is emitted,
whatever the flag; and when auto-start is disabled no service descriptor is
written — so a `service` `in_progress` event never implies that service
registration was attempted. -/
theorem service_in_progress_before_flag (env : InstallEnv)
    (config : InstallerConfig) (fs : FS) :
    (cfC ∈ (run_installation env config fs).events →
      svIp ∈ (run_installation env config fs).events)
    ∧ (config.enable_auto_start = false →
        (run_installation env config fs).fs.serviceUnit = fs.serviceUnit) := by
  obtain ⟨s, b, pk, np, nb, nm, st, su, hfs, _q1, _q2, _q3, _q4, _q5, _q6, _q7, _q8, _q9,
    hj, _q10, _q11, _q14, _q12, _q15, _q13⟩ := run_fs_spec env config fs
  refine ⟨?_, ?_⟩
  · intro hcf
    rcases run_trace_cases env config fs with ⟨_, hev⟩ | ⟨_, hevs⟩
    · rw [hev, fullTrace]
      decide
    · rcases hevs with hq | hq | hq | hq | hq <;> rw [hq] at hcf ⊢ <;>
        first
          | decide
          | exact absurd hcf (by decide)
  · intro h
    rw [hfs]
    exact hj h

/-- Witness for C10: the `service` `in_progress` event is emitted on an
auto-start-enabled failing run and on the all-success disabled run alike, and
the disabled run writes no descriptor. -/
theorem service_in_progress_before_flag_witness :
    svIp ∈ (run_installation { envAllOk with writeService := some "refused" }
        { cfgDefault with enable_auto_start := true } fsEmpty).events
    ∧ svIp ∈ (run_installation envAllOk cfgDefault fsEmpty).events
    ∧ (run_installation envAllOk cfgDefault fsEmpty).fs.serviceUnit = none :=
  ⟨(service_in_progress_before_flag { envAllOk with writeService := some "refused" }
      { cfgDefault with enable_auto_start := true } fsEmpty).1 (by decide),
   (service_in_progress_before_flag envAllOk cfgDefault fsEmpty).1 (by decide),
   (service_in_progress_before_flag envAllOk cfgDefault fsEmpty).2 rfl⟩

end SignalKInstaller
